import Mathlib

/-!
Verification of the mini_meta_harness supply-chain services (Material and
Procure-to-Pay) against their specification.  The service layer
(services/material_service.py, services/p2p_service.py) is embedded directly;
the helper modules and data layers (models/material.py, models/p2p.py,
services/material_service_helpers.py, services/p2p_service_helpers.py,
utils/error_utils.py) are not part of the provided sources, so their behaviour
is modelled from the specification (each such definition carries a doc comment
saying so).  Timestamps (created_at / updated_at) are abstracted away: no
business rule under scrutiny depends on them.  Python float quantities and
prices are modelled as rationals: the services only assign and compare these
values, so the embedding is exact on every representable input.
-/

namespace MiniMeta

/-- Material lifecycle status (models/material.py `MaterialStatus`). -/
inductive MaterialStatus
  | ACTIVE
  | INACTIVE
  | DEPRECATED
  deriving DecidableEq, Repr

/-- Material type (models/material.py `MaterialType`). -/
inductive MaterialType
  | RAW
  | SEMIFINISHED
  | FINISHED
  | SERVICE
  | TRADING
  deriving DecidableEq, Repr

/-- Procurement document status, shared by requisitions and orders
(models/p2p.py `DocumentStatus`). -/
inductive DocumentStatus
  | DRAFT
  | SUBMITTED
  | APPROVED
  | REJECTED
  | ORDERED
  | PARTIALLY_RECEIVED
  | RECEIVED
  | COMPLETED
  | CANCELED
  deriving DecidableEq, Repr

/-- Rendering of a document status inside error messages (the Python services
interpolate the enum member into f-strings; the exact rendering is modelled as
the member name). -/
def DocumentStatus.str : DocumentStatus → String
  | .DRAFT => "DRAFT"
  | .SUBMITTED => "SUBMITTED"
  | .APPROVED => "APPROVED"
  | .REJECTED => "REJECTED"
  | .ORDERED => "ORDERED"
  | .PARTIALLY_RECEIVED => "PARTIALLY_RECEIVED"
  | .RECEIVED => "RECEIVED"
  | .COMPLETED => "COMPLETED"
  | .CANCELED => "CANCELED"

/-- Rendering of a material status inside error messages. -/
def MaterialStatus.str : MaterialStatus → String
  | .ACTIVE => "ACTIVE"
  | .INACTIVE => "INACTIVE"
  | .DEPRECATED => "DEPRECATED"

/-- Modelled from the spec: the error taxonomy of utils/error_utils.py
(NotFoundError, ValidationError, ConflictError, BadRequestError), each carrying
a message.  Structured `details` payloads are abstracted into the message. -/
inductive PError
  | notFound (msg : String)
  | validation (msg : String)
  | conflict (msg : String)
  | badRequest (msg : String)
  deriving DecidableEq, Repr

/-- The error component of a service result, discarding the value. -/
def errOf {α : Type} : Except PError α → Option PError
  | .error e => some e
  | .ok _ => none

/-- A message `msg` mentions the token `n` when `n` occurs verbatim in it. -/
def mentions (msg n : String) : Prop := ∃ p q, msg = p ++ n ++ q

/-! The generic keyed collection of spec section 4.3: an ordered mapping from
string key to record, supporting upsert, get and remove.  Modelled from the
spec as an association list that keeps insertion order. -/

/-- Look a key up in the collection. -/
def colGet {α : Type} (k : String) (c : List (String × α)) : Option α :=
  (c.find? (fun p => p.1 == k)).map (·.2)

/-- Upsert: replace in place when the key is present, else append. -/
def colAdd {α : Type} (k : String) (v : α) :
    List (String × α) → List (String × α)
  | [] => [(k, v)]
  | p :: rest => if p.1 == k then (k, v) :: rest else p :: colAdd k v rest

/-- Remove a key from the collection. -/
def colRemove {α : Type} (k : String) (c : List (String × α)) :
    List (String × α) :=
  c.filter (fun p => p.1 != k)

/-! Material master data (models/material.py, services/material_service.py).
Fields irrelevant to every business rule under scrutiny (base unit, weight,
volume, dimensions, timestamps) are omitted. -/

/-- A material master record (models/material.py `Material`). -/
structure Material where
  material_number : String
  name : String
  description : Option String := none
  type : MaterialType := .FINISHED
  status : MaterialStatus := .ACTIVE
  deriving DecidableEq, Repr

/-- Modelled from the spec: the creation payload (models/material.py
`MaterialCreate`); the material number is optional (generated when absent) and
the status defaults to Active when not supplied. -/
structure MaterialCreate where
  material_number : Option String := none
  name : String
  description : Option String := none
  type : MaterialType := .FINISHED
  status : Option MaterialStatus := none
  deriving DecidableEq, Repr

/-- Modelled from the spec: the update payload (models/material.py
`MaterialUpdate`); every field is optional and absent fields are untouched. -/
structure MaterialUpdate where
  name : Option String := none
  description : Option String := none
  status : Option MaterialStatus := none
  deriving DecidableEq, Repr

/-- The material store keyed by material number. -/
abbrev MaterialStore := List (String × Material)

/-- Modelled from the spec: material status transition table
(services/material_service_helpers.py `validate_material_status_transition`):
ACTIVE and INACTIVE move freely between each other, anything may move to
DEPRECATED, and DEPRECATED moves nowhere.  Only consulted when the requested
status differs from the current one. -/
def validate_material_status_transition :
    MaterialStatus → MaterialStatus → Bool
  | .DEPRECATED, _ => false
  | _, .DEPRECATED => true
  | .ACTIVE, .INACTIVE => true
  | .INACTIVE, .ACTIVE => true
  | _, _ => false

/-- Modelled from the spec: deletion precondition
(services/material_service_helpers.py `validate_material_can_be_deleted`): a
material may be deleted unless its status is ACTIVE. -/
def validate_material_can_be_deleted (st : MaterialStatus) : Bool :=
  st != .ACTIVE

/-- Modelled from the spec: deprecation precondition
(services/material_service_helpers.py `validate_material_can_be_deprecated`):
a material may be deprecated unless it already is DEPRECATED. -/
def validate_material_can_be_deprecated (st : MaterialStatus) : Bool :=
  st != .DEPRECATED

/-- Modelled from the spec: applying an update payload to a record in the
material data layer (models/material.py `MaterialDataLayer.update`); fields
present in the patch replace the record's, absent fields are kept. -/
def applyMaterialUpdate (m : Material) (u : MaterialUpdate) : Material :=
  { m with
    name := u.name.getD m.name
    description :=
      match u.description with
      | some d => some d
      | none => m.description
    status := u.status.getD m.status }

/-- Modelled from the spec: the data-layer create (models/material.py
`MaterialDataLayer.create`).  The document-number uniqueness invariant holds
at the data layer (generated numbers are unique per the spec; the manual tests
show the data layer raising ConflictError on duplicates), so a duplicate key
is refused rather than overwritten. -/
def dlMatCreate (s : MaterialStore) (num : String) (d : MaterialCreate) :
    Except PError Material × MaterialStore :=
  match colGet num s with
  | some _ =>
    (.error (.conflict ("Material with number " ++ num ++ " already exists")),
     s)
  | none =>
    let m : Material :=
      { material_number := num
        name := d.name
        description := d.description
        type := d.type
        status := d.status.getD .ACTIVE }
    (.ok m, colAdd num m s)

/-- MaterialService.get_material: resolve a material or fail with
NotFoundError (services/material_service.py lines 38-61). -/
def get_material (s : MaterialStore) (id : String) : Except PError Material :=
  match colGet id s with
  | none => .error (.notFound ("Material with ID " ++ id ++ " not found"))
  | some m => .ok m

/-- MaterialService.create_material (services/material_service.py lines
136-182): an explicitly supplied number that already exists raises
ConflictError; otherwise the generated number `genNum` is assigned.  The
random generation of `genNum` itself is modelled as a parameter. -/
def create_material (s : MaterialStore) (d : MaterialCreate)
    (genNum : String) : Except PError Material × MaterialStore :=
  match d.material_number with
  | some n =>
    match colGet n s with
    | some _ =>
      (.error (.conflict
        ("Material with number " ++ n ++ " already exists")), s)
    | none => dlMatCreate s n d
  | none => dlMatCreate s genNum d

/-- MaterialService.update_material (services/material_service.py lines
184-251): a status change is validated against the transition table before
the data layer applies the patch. -/
def update_material (s : MaterialStore) (id : String) (u : MaterialUpdate) :
    Except PError Material × MaterialStore :=
  match colGet id s with
  | none =>
    (.error (.notFound ("Material with ID " ++ id ++ " not found")), s)
  | some m =>
    match u.status with
    | some st =>
      if st ≠ m.status ∧ ¬ validate_material_status_transition m.status st
      then
        (.error (.validation
          ("Invalid status transition from " ++ m.status.str ++ " to " ++
            st.str)), s)
      else
        let m' := applyMaterialUpdate m u
        (.ok m', colAdd id m' s)
    | none =>
      let m' := applyMaterialUpdate m u
      (.ok m', colAdd id m' s)

/-- MaterialService.delete_material (services/material_service.py lines
253-296): deletion is refused with ValidationError while the material is
ACTIVE. -/
def delete_material (s : MaterialStore) (id : String) :
    Except PError Bool × MaterialStore :=
  match colGet id s with
  | none =>
    (.error (.notFound ("Material with ID " ++ id ++ " not found")), s)
  | some m =>
    if validate_material_can_be_deleted m.status then
      (.ok true, colRemove id s)
    else
      (.error (.validation
        ("Cannot delete material with status " ++ m.status.str ++
          ". Deprecate it first.")), s)

/-- MaterialService.deprecate_material (services/material_service.py lines
316-364): refuse when already DEPRECATED, else update the status to
DEPRECATED; a ValidationError surfacing from the update is rewrapped with
deprecation context. -/
def deprecate_material (s : MaterialStore) (id : String) :
    Except PError Material × MaterialStore :=
  match colGet id s with
  | none =>
    (.error (.notFound ("Material with ID " ++ id ++ " not found")), s)
  | some m =>
    if validate_material_can_be_deprecated m.status then
      let r := update_material s id { status := some .DEPRECATED }
      match r.1 with
      | .error (.validation msg) =>
        (.error (.validation
          ("Cannot deprecate material " ++ id ++ ": " ++ msg)), r.2)
      | x => (x, r.2)
    else
      (.error (.validation
        ("Material with status " ++ m.status.str ++
          " cannot be deprecated. Material is already deprecated.")), s)

/-- MaterialService.activate_material (services/material_service.py lines
366-415): refuse when DEPRECATED, else update the status to ACTIVE; a
ValidationError surfacing from the update is rewrapped with activation
context. -/
def activate_material (s : MaterialStore) (id : String) :
    Except PError Material × MaterialStore :=
  match colGet id s with
  | none =>
    (.error (.notFound ("Material with ID " ++ id ++ " not found")), s)
  | some m =>
    if m.status = .DEPRECATED then
      (.error (.validation "Cannot activate a deprecated material."), s)
    else
      let r := update_material s id { status := some .ACTIVE }
      match r.1 with
      | .error (.validation msg) =>
        (.error (.validation
          ("Cannot activate material " ++ id ++ ": " ++ msg)), r.2)
      | x => (x, r.2)

/-- The operations of the material service, for quantifying over them. -/
inductive MatOp
  | create (d : MaterialCreate) (genNum : String)
  | update (id : String) (u : MaterialUpdate)
  | delete (id : String)
  | deprecate (id : String)
  | activate (id : String)
  deriving DecidableEq, Repr

/-- Run a material-service operation, keeping only the error component of the
result together with the post-state. -/
def runMatOp (s : MaterialStore) : MatOp → Option PError × MaterialStore
  | .create d g => let r := create_material s d g; (errOf r.1, r.2)
  | .update id u => let r := update_material s id u; (errOf r.1, r.2)
  | .delete id => let r := delete_material s id; (errOf r.1, r.2)
  | .deprecate id => let r := deprecate_material s id; (errOf r.1, r.2)
  | .activate id => let r := activate_material s id; (errOf r.1, r.2)

/-! Procurement documents (models/p2p.py, services/p2p_service.py).
Quantities and prices are rationals; timestamps and urgency/procurement-type
attributes are omitted as no rule under scrutiny reads them. -/

/-- A requisition line item (models/p2p.py `RequisitionItem`). -/
structure RequisitionItem where
  item_number : Nat
  material_number : Option String := none
  description : String
  quantity : Rat
  unit : String
  price : Rat
  assigned_to_order : Option String := none
  deriving DecidableEq, Repr

/-- A requisition document (models/p2p.py `Requisition`). -/
structure Requisition where
  document_number : String
  description : String
  requester : String
  department : String := ""
  items : List RequisitionItem := []
  status : DocumentStatus := .DRAFT
  notes : List String := []
  deriving DecidableEq, Repr

/-- An order line item (models/p2p.py `OrderItem`), carrying the received
quantity and the back-reference to the source requisition item. -/
structure OrderItem where
  item_number : Nat
  material_number : Option String := none
  description : String
  quantity : Rat
  unit : String
  price : Rat
  received_quantity : Rat := 0
  requisition_reference : Option String := none
  requisition_item : Option Nat := none
  deriving DecidableEq, Repr

/-- An order document (models/p2p.py `Order`). -/
structure Order where
  document_number : String
  description : String
  requester : String
  vendor : Option String := none
  payment_terms : Option String := none
  items : List OrderItem := []
  status : DocumentStatus := .DRAFT
  requisition_reference : Option String := none
  notes : List String := []
  deriving DecidableEq, Repr

/-- Modelled from the spec: requisition creation payload (models/p2p.py
`RequisitionCreate`); documents are created in DRAFT status. -/
structure RequisitionCreate where
  document_number : String
  description : String
  requester : String
  department : String := ""
  items : List RequisitionItem := []
  deriving DecidableEq, Repr

/-- Modelled from the spec: requisition update payload (models/p2p.py
`RequisitionUpdate`); absent fields are untouched. -/
structure RequisitionUpdate where
  description : Option String := none
  items : Option (List RequisitionItem) := none
  status : Option DocumentStatus := none
  notes : Option (List String) := none
  deriving DecidableEq, Repr

/-- Modelled from the spec: order creation payload (models/p2p.py
`OrderCreate`). -/
structure OrderCreate where
  document_number : String
  description : String
  requester : String
  vendor : Option String := none
  payment_terms : Option String := none
  items : List OrderItem := []
  deriving DecidableEq, Repr

/-- Modelled from the spec: order update payload (models/p2p.py
`OrderUpdate`); absent fields are untouched. -/
structure OrderUpdate where
  description : Option String := none
  items : Option (List OrderItem) := none
  status : Option DocumentStatus := none
  notes : Option (List String) := none
  deriving DecidableEq, Repr

/-- The P2P store: requisitions and orders, each keyed by document number. -/
structure P2PState where
  requisitions : List (String × Requisition) := []
  orders : List (String × Order) := []
  deriving DecidableEq, Repr

/-- Modelled from the spec: the requisition transition table
(services/p2p_service_helpers.py `validate_requisition_status_transition`):
Draft to Submitted to Approved to Ordered, with Submitted to Rejected.  Only
consulted when the requested status differs from the current one. -/
def validate_requisition_status_transition :
    DocumentStatus → DocumentStatus → Bool
  | .DRAFT, .SUBMITTED => true
  | .SUBMITTED, .APPROVED => true
  | .SUBMITTED, .REJECTED => true
  | .APPROVED, .ORDERED => true
  | _, _ => false

/-- Modelled from the spec: the order transition table
(services/p2p_service_helpers.py `validate_order_status_transition`): Draft to
Submitted to Approved to PartiallyReceived or Received to Completed, and any
non-terminal status to Canceled (Completed and Canceled are terminal). -/
def validate_order_status_transition :
    DocumentStatus → DocumentStatus → Bool
  | .DRAFT, .SUBMITTED => true
  | .SUBMITTED, .APPROVED => true
  | .APPROVED, .PARTIALLY_RECEIVED => true
  | .APPROVED, .RECEIVED => true
  | .RECEIVED, .COMPLETED => true
  | .PARTIALLY_RECEIVED, .COMPLETED => true
  | .COMPLETED, .CANCELED => false
  | .CANCELED, .CANCELED => false
  | _, .CANCELED => true
  | _, _ => false

/-- Modelled from the spec: vendor validation
(services/p2p_service_helpers.py `validate_vendor`): the vendor must be
present and non-empty. -/
def validate_vendor (v : Option String) : Bool :=
  match v with
  | some s => s != ""
  | none => false

/-- Modelled from the spec: item validation on submission
(services/p2p_service_helpers.py `validate_requisition_items`); the exact
field rules are not given by the spec, only that submission validates the
items, modelled as a non-empty list with positive quantities. -/
def validate_requisition_items (items : List RequisitionItem) : Bool :=
  !items.isEmpty && items.all (fun it => 0 < it.quantity)

/-- Modelled from the spec: item validation on order submission
(services/p2p_service_helpers.py `validate_order_items`), modelled as a
non-empty list with positive quantities. -/
def validate_order_items (items : List OrderItem) : Bool :=
  !items.isEmpty && items.all (fun it => 0 < it.quantity)

/-- Modelled from the spec: resolving an item's material reference
(services/p2p_service_helpers.py `validate_material_active`): the material is
looked up through the material service; a missing or DEPRECATED material
raises ValidationError whose message names the material number (the
integration tests check for "Invalid material" and the number); INACTIVE
materials pass. -/
def validate_material_active (mats : MaterialStore) (num : String) :
    Except PError Unit :=
  match colGet num mats with
  | none =>
    .error (.validation ("Invalid material " ++ num ++ ": not found"))
  | some m =>
    if m.status = .DEPRECATED then
      .error (.validation
        ("Invalid material " ++ num ++ ": material is deprecated"))
    else
      .ok ()

/-- The loop over requisition items in P2PService.create_requisition
(services/p2p_service.py lines 135-138): each item carrying a material
reference is validated; the first failure aborts the operation. -/
def validate_req_items_materials (mats : MaterialStore) :
    List RequisitionItem → Except PError Unit
  | [] => .ok ()
  | it :: rest =>
    match it.material_number with
    | some n =>
      match validate_material_active mats n with
      | .error e => .error e
      | .ok _ => validate_req_items_materials mats rest
    | none => validate_req_items_materials mats rest

/-- The loop over order items in P2PService.create_order
(services/p2p_service.py lines 405-408). -/
def validate_ord_items_materials (mats : MaterialStore) :
    List OrderItem → Except PError Unit
  | [] => .ok ()
  | it :: rest =>
    match it.material_number with
    | some n =>
      match validate_material_active mats n with
      | .error e => .error e
      | .ok _ => validate_ord_items_materials mats rest
    | none => validate_ord_items_materials mats rest

/-- Modelled from the spec: note accumulation
(services/p2p_service_helpers.py `append_note`). -/
def append_note (notes : List String) (note : String) : List String :=
  notes ++ [note]

/-- Modelled from the spec: per-line application of received quantities
(services/p2p_service_helpers.py `prepare_received_items`): each line's
received quantity becomes the quantity supplied for its item number, and
defaults to its full ordered quantity when the mapping omits it or is
absent. -/
def prepare_received_items (o : Order) (ri : Option (List (Nat × Rat))) :
    List OrderItem :=
  o.items.map (fun it =>
    { it with
      received_quantity :=
        match ri with
        | none => it.quantity
        | some l => (l.lookup it.item_number).getD it.quantity })

/-- Modelled from the spec: status derivation after receiving
(services/p2p_service_helpers.py `determine_order_status_from_items`):
Received when every line's received quantity reaches its ordered quantity,
PartiallyReceived when some but not all lines are fully received, otherwise
the status is left as it was. -/
def determine_order_status_from_items (items : List OrderItem)
    (cur : DocumentStatus) : DocumentStatus :=
  if items.all (fun it => it.quantity ≤ it.received_quantity) then
    .RECEIVED
  else if items.any (fun it => it.quantity ≤ it.received_quantity) then
    .PARTIALLY_RECEIVED
  else
    cur

/-- Modelled from the spec: applying a requisition update payload in the data
layer (models/p2p.py `P2PDataLayer.update_requisition`). -/
def applyRequisitionUpdate (r : Requisition) (u : RequisitionUpdate) :
    Requisition :=
  { r with
    description := u.description.getD r.description
    items := u.items.getD r.items
    status := u.status.getD r.status
    notes := u.notes.getD r.notes }

/-- Modelled from the spec: applying an order update payload in the data
layer (models/p2p.py `P2PDataLayer.update_order`). -/
def applyOrderUpdate (o : Order) (u : OrderUpdate) : Order :=
  { o with
    description := u.description.getD o.description
    items := u.items.getD o.items
    status := u.status.getD o.status
    notes := u.notes.getD o.notes }

/-- Modelled from the spec: data-layer requisition creation (models/p2p.py
`P2PDataLayer.create_requisition`): a duplicate document number raises
ConflictError (manual test 11), otherwise the document is stored in DRAFT
status. -/
def dlCreateRequisition (s : P2PState) (d : RequisitionCreate) :
    Except PError Requisition × P2PState :=
  match colGet d.document_number s.requisitions with
  | some _ =>
    (.error (.conflict
      ("Requisition " ++ d.document_number ++ " already exists")), s)
  | none =>
    let r : Requisition :=
      { document_number := d.document_number
        description := d.description
        requester := d.requester
        department := d.department
        items := d.items
        status := .DRAFT
        notes := [] }
    (.ok r,
     { s with requisitions := colAdd d.document_number r s.requisitions })

/-- Modelled from the spec: data-layer order creation (models/p2p.py
`P2PDataLayer.create_order`). -/
def dlCreateOrder (s : P2PState) (d : OrderCreate) :
    Except PError Order × P2PState :=
  match colGet d.document_number s.orders with
  | some _ =>
    (.error (.conflict
      ("Order " ++ d.document_number ++ " already exists")), s)
  | none =>
    let o : Order :=
      { document_number := d.document_number
        description := d.description
        requester := d.requester
        vendor := d.vendor
        payment_terms := d.payment_terms
        items := d.items
        status := .DRAFT
        requisition_reference := none
        notes := [] }
    (.ok o, { s with orders := colAdd d.document_number o s.orders })

/-- Modelled from the spec: data-layer conversion of an approved requisition
into an order (models/p2p.py `P2PDataLayer.create_order_from_requisition`):
each requisition item is copied into an order item preserving quantity, unit
and price, the back-reference pair (source requisition number and source item
number) is stamped on both sides, the requisition's status becomes ORDERED and
each source item is marked assigned to the new order number.  The generated
order number is the parameter `genNum` (generation itself is random). -/
def dlCreateOrderFromRequisition (s : P2PState) (reqNum vendor : String)
    (terms : Option String) (genNum : String) :
    Except PError Order × P2PState :=
  match colGet reqNum s.requisitions with
  | none => (.error (.notFound ("Requisition " ++ reqNum ++ " not found")), s)
  | some r =>
    match colGet genNum s.orders with
    | some _ =>
      (.error (.conflict ("Order " ++ genNum ++ " already exists")), s)
    | none =>
      let items : List OrderItem := r.items.map (fun it =>
        { item_number := it.item_number
          material_number := it.material_number
          description := it.description
          quantity := it.quantity
          unit := it.unit
          price := it.price
          received_quantity := 0
          requisition_reference := some r.document_number
          requisition_item := some it.item_number })
      let o : Order :=
        { document_number := genNum
          description := r.description
          requester := r.requester
          vendor := some vendor
          payment_terms := terms
          items := items
          status := .DRAFT
          requisition_reference := some r.document_number
          notes := [] }
      let r' : Requisition :=
        { r with
          status := .ORDERED
          items := r.items.map (fun it =>
            { it with assigned_to_order := some genNum }) }
      (.ok o,
       { s with
         orders := colAdd genNum o s.orders
         requisitions := colAdd reqNum r' s.requisitions })

/-- P2PService.create_requisition (services/p2p_service.py lines 121-141):
material references are validated, then the data layer stores the
document. -/
def create_requisition (mats : MaterialStore) (s : P2PState)
    (d : RequisitionCreate) : Except PError Requisition × P2PState :=
  match validate_req_items_materials mats d.items with
  | .error e => (.error e, s)
  | .ok _ => dlCreateRequisition s d

/-- The status-change validation inside P2PService.update_requisition
(services/p2p_service.py lines 169-177): nothing is checked when the status
is absent or unchanged; otherwise the transition table is consulted and a
change to SUBMITTED additionally validates the items. -/
def checkReqStatusChange (r : Requisition) (u : RequisitionUpdate) :
    Except PError Unit :=
  match u.status with
  | none => .ok ()
  | some st =>
    if st = r.status then .ok ()
    else if ¬ validate_requisition_status_transition r.status st then
      .error (.validation
        ("Invalid status transition from " ++ r.status.str ++ " to " ++
          st.str))
    else if st = .SUBMITTED ∧ ¬ validate_requisition_items r.items then
      .error (.validation "Requisition items are invalid")
    else .ok ()

/-- P2PService.update_requisition (services/p2p_service.py lines 143-184). -/
def update_requisition (s : P2PState) (num : String)
    (u : RequisitionUpdate) : Except PError Requisition × P2PState :=
  match colGet num s.requisitions with
  | none => (.error (.notFound ("Requisition " ++ num ++ " not found")), s)
  | some r =>
    if r.status ≠ .DRAFT ∧ u.items.isSome ∧ u.status = none then
      (.error (.validation
        "Cannot update items after requisition is submitted"), s)
    else
      match checkReqStatusChange r u with
      | .error e => (.error e, s)
      | .ok _ =>
        let r' := applyRequisitionUpdate r u
        (.ok r', { s with requisitions := colAdd num r' s.requisitions })

/-- P2PService.submit_requisition (services/p2p_service.py lines 186-214). -/
def submit_requisition (s : P2PState) (num : String) :
    Except PError Requisition × P2PState :=
  match colGet num s.requisitions with
  | none => (.error (.notFound ("Requisition " ++ num ++ " not found")), s)
  | some r =>
    if r.status ≠ .DRAFT then
      (.error (.validation
        ("Cannot submit requisition with status " ++ r.status.str ++
          ". Must be DRAFT.")), s)
    else if ¬ validate_requisition_items r.items then
      (.error (.validation "Requisition items are invalid"), s)
    else
      update_requisition s num { status := some .SUBMITTED }

/-- P2PService.approve_requisition (services/p2p_service.py lines 216-241). -/
def approve_requisition (s : P2PState) (num : String) :
    Except PError Requisition × P2PState :=
  match colGet num s.requisitions with
  | none => (.error (.notFound ("Requisition " ++ num ++ " not found")), s)
  | some r =>
    if r.status ≠ .SUBMITTED then
      (.error (.validation
        ("Cannot approve requisition with status " ++ r.status.str ++
          ". Must be SUBMITTED.")), s)
    else
      update_requisition s num { status := some .APPROVED }

/-- P2PService.reject_requisition (services/p2p_service.py lines 243-274). -/
def reject_requisition (s : P2PState) (num reason : String) :
    Except PError Requisition × P2PState :=
  match colGet num s.requisitions with
  | none => (.error (.notFound ("Requisition " ++ num ++ " not found")), s)
  | some r =>
    if r.status ≠ .SUBMITTED then
      (.error (.validation
        ("Cannot reject requisition with status " ++ r.status.str ++
          ". Must be SUBMITTED.")), s)
    else
      update_requisition s num
        { status := some .REJECTED
          notes := some (append_note r.notes ("REJECTED: " ++ reason)) }

/-- P2PService.delete_requisition (services/p2p_service.py lines 276-305):
only DRAFT or REJECTED requisitions may be deleted. -/
def delete_requisition (s : P2PState) (num : String) :
    Except PError Bool × P2PState :=
  match colGet num s.requisitions with
  | none => (.error (.notFound ("Requisition " ++ num ++ " not found")), s)
  | some r =>
    if r.status = .DRAFT ∨ r.status = .REJECTED then
      (.ok true, { s with requisitions := colRemove num s.requisitions })
    else
      (.error (.validation
        ("Cannot delete requisition with status " ++ r.status.str ++
          ". Only DRAFT or REJECTED requisitions can be deleted.")), s)

/-- P2PService.create_order (services/p2p_service.py lines 388-411): the
vendor and the items' material references are validated, then the data layer
stores the document. -/
def create_order (mats : MaterialStore) (s : P2PState) (d : OrderCreate) :
    Except PError Order × P2PState :=
  if ¬ validate_vendor d.vendor then
    (.error (.validation "Vendor is required"), s)
  else
    match validate_ord_items_materials mats d.items with
    | .error e => (.error e, s)
    | .ok _ => dlCreateOrder s d

/-- P2PService.create_order_from_requisition (services/p2p_service.py lines
413-446): the requisition must exist and be APPROVED and the vendor must
validate; conversion itself is performed by the data layer. -/
def create_order_from_requisition (s : P2PState) (reqNum vendor : String)
    (terms : Option String) (genNum : String) :
    Except PError Order × P2PState :=
  match colGet reqNum s.requisitions with
  | none => (.error (.notFound ("Requisition " ++ reqNum ++ " not found")), s)
  | some r =>
    if r.status ≠ .APPROVED then
      (.error (.validation
        ("Cannot create order from requisition with status " ++
          r.status.str ++ ". Must be APPROVED.")), s)
    else if ¬ validate_vendor (some vendor) then
      (.error (.validation "Vendor is required"), s)
    else
      dlCreateOrderFromRequisition s reqNum vendor terms genNum

/-- The status-change validation inside P2PService.update_order
(services/p2p_service.py lines 474-484): nothing is checked when the status
is absent or unchanged; otherwise the transition table is consulted and a
change to SUBMITTED additionally validates the vendor and items. -/
def checkOrdStatusChange (o : Order) (u : OrderUpdate) :
    Except PError Unit :=
  match u.status with
  | none => .ok ()
  | some st =>
    if st = o.status then .ok ()
    else if ¬ validate_order_status_transition o.status st then
      .error (.validation
        ("Invalid status transition from " ++ o.status.str ++ " to " ++
          st.str))
    else if st = .SUBMITTED ∧
        ¬ (validate_vendor o.vendor && validate_order_items o.items) then
      .error (.validation "Order vendor or items are invalid")
    else .ok ()

/-- P2PService.update_order (services/p2p_service.py lines 448-490). -/
def update_order (s : P2PState) (num : String) (u : OrderUpdate) :
    Except PError Order × P2PState :=
  match colGet num s.orders with
  | none => (.error (.notFound ("Order " ++ num ++ " not found")), s)
  | some o =>
    if o.status ≠ .DRAFT ∧ u.items.isSome ∧ u.status = none then
      (.error (.validation "Cannot update items after order is submitted"), s)
    else
      match checkOrdStatusChange o u with
      | .error e => (.error e, s)
      | .ok _ =>
        let o' := applyOrderUpdate o u
        (.ok o', { s with orders := colAdd num o' s.orders })

/-- P2PService.submit_order (services/p2p_service.py lines 492-521). -/
def submit_order (s : P2PState) (num : String) :
    Except PError Order × P2PState :=
  match colGet num s.orders with
  | none => (.error (.notFound ("Order " ++ num ++ " not found")), s)
  | some o =>
    if o.status ≠ .DRAFT then
      (.error (.validation
        ("Cannot submit order with status " ++ o.status.str ++
          ". Must be DRAFT.")), s)
    else if ¬ (validate_vendor o.vendor && validate_order_items o.items) then
      (.error (.validation "Order vendor or items are invalid"), s)
    else
      update_order s num { status := some .SUBMITTED }

/-- P2PService.approve_order (services/p2p_service.py lines 523-548). -/
def approve_order (s : P2PState) (num : String) :
    Except PError Order × P2PState :=
  match colGet num s.orders with
  | none => (.error (.notFound ("Order " ++ num ++ " not found")), s)
  | some o =>
    if o.status ≠ .SUBMITTED then
      (.error (.validation
        ("Cannot approve order with status " ++ o.status.str ++
          ". Must be SUBMITTED.")), s)
    else
      update_order s num { status := some .APPROVED }

/-- P2PService.receive_order (services/p2p_service.py lines 550-588): the
order must be APPROVED; the per-line received quantities are applied and the
new status is derived from the updated lines, then both are written through
update_order.  The caller supplies no status. -/
def receive_order (s : P2PState) (num : String)
    (ri : Option (List (Nat × Rat))) : Except PError Order × P2PState :=
  match colGet num s.orders with
  | none => (.error (.notFound ("Order " ++ num ++ " not found")), s)
  | some o =>
    if o.status ≠ .APPROVED then
      (.error (.validation
        ("Cannot receive order with status " ++ o.status.str ++
          ". Must be APPROVED.")), s)
    else
      let updated_items := prepare_received_items o ri
      let new_status := determine_order_status_from_items updated_items
        o.status
      update_order s num
        { items := some updated_items, status := some new_status }

/-- P2PService.complete_order (services/p2p_service.py lines 590-616). -/
def complete_order (s : P2PState) (num : String) :
    Except PError Order × P2PState :=
  match colGet num s.orders with
  | none => (.error (.notFound ("Order " ++ num ++ " not found")), s)
  | some o =>
    if o.status = .RECEIVED ∨ o.status = .PARTIALLY_RECEIVED then
      update_order s num { status := some .COMPLETED }
    else
      (.error (.validation
        ("Cannot complete order with status " ++ o.status.str ++
          ". Must be RECEIVED or PARTIALLY_RECEIVED.")), s)

/-- P2PService.cancel_order (services/p2p_service.py lines 618-649): a
COMPLETED or CANCELED order cannot be canceled. -/
def cancel_order (s : P2PState) (num reason : String) :
    Except PError Order × P2PState :=
  match colGet num s.orders with
  | none => (.error (.notFound ("Order " ++ num ++ " not found")), s)
  | some o =>
    if o.status = .COMPLETED ∨ o.status = .CANCELED then
      (.error (.validation
        ("Cannot cancel order with status " ++ o.status.str ++ ".")), s)
    else
      update_order s num
        { status := some .CANCELED
          notes := some (append_note o.notes ("CANCELED: " ++ reason)) }

/-- P2PService.delete_order (services/p2p_service.py lines 651-680): only
DRAFT orders may be deleted. -/
def delete_order (s : P2PState) (num : String) :
    Except PError Bool × P2PState :=
  match colGet num s.orders with
  | none => (.error (.notFound ("Order " ++ num ++ " not found")), s)
  | some o =>
    if o.status = .DRAFT then
      (.ok true, { s with orders := colRemove num s.orders })
    else
      (.error (.validation
        ("Cannot delete order with status " ++ o.status.str ++
          ". Only DRAFT orders can be deleted.")), s)

/-- The operations of the P2P service, for quantifying over them. -/
inductive P2POp
  | createReq (d : RequisitionCreate)
  | updateReq (num : String) (u : RequisitionUpdate)
  | submitReq (num : String)
  | approveReq (num : String)
  | rejectReq (num reason : String)
  | deleteReq (num : String)
  | createOrd (d : OrderCreate)
  | createOrdFromReq (reqNum vendor : String) (terms : Option String)
      (genNum : String)
  | updateOrd (num : String) (u : OrderUpdate)
  | submitOrd (num : String)
  | approveOrd (num : String)
  | receiveOrd (num : String) (ri : Option (List (Nat × Rat)))
  | completeOrd (num : String)
  | cancelOrd (num reason : String)
  | deleteOrd (num : String)
  deriving DecidableEq, Repr

/-- Run a P2P-service operation against the material store `mats` (read-only
for this service) and P2P store `s`, keeping only the error component of the
result together with the post-state. -/
def runP2POp (mats : MaterialStore) (s : P2PState) :
    P2POp → Option PError × P2PState
  | .createReq d => let r := create_requisition mats s d; (errOf r.1, r.2)
  | .updateReq num u => let r := update_requisition s num u; (errOf r.1, r.2)
  | .submitReq num => let r := submit_requisition s num; (errOf r.1, r.2)
  | .approveReq num => let r := approve_requisition s num; (errOf r.1, r.2)
  | .rejectReq num reason =>
    let r := reject_requisition s num reason; (errOf r.1, r.2)
  | .deleteReq num => let r := delete_requisition s num; (errOf r.1, r.2)
  | .createOrd d => let r := create_order mats s d; (errOf r.1, r.2)
  | .createOrdFromReq reqNum vendor terms genNum =>
    let r := create_order_from_requisition s reqNum vendor terms genNum
    (errOf r.1, r.2)
  | .updateOrd num u => let r := update_order s num u; (errOf r.1, r.2)
  | .submitOrd num => let r := submit_order s num; (errOf r.1, r.2)
  | .approveOrd num => let r := approve_order s num; (errOf r.1, r.2)
  | .receiveOrd num ri => let r := receive_order s num ri; (errOf r.1, r.2)
  | .completeOrd num => let r := complete_order s num; (errOf r.1, r.2)
  | .cancelOrd num reason =>
    let r := cancel_order s num reason; (errOf r.1, r.2)
  | .deleteOrd num => let r := delete_order s num; (errOf r.1, r.2)

/-! Concrete fixtures, drawn from the repository's tests, used to instantiate
the theorems on explicit inputs. -/

/-- Fixture: an active material. -/
def matActive : Material := { material_number := "M1", name := "Bolt" }

/-- Fixture: an inactive material. -/
def matInactive : Material :=
  { material_number := "M2", name := "Nut", status := .INACTIVE }

/-- Fixture: a deprecated material. -/
def matDeprecated : Material :=
  { material_number := "M3", name := "Washer", status := .DEPRECATED }

/-- Fixture: a material store with one material in each status. -/
def fixtureMats : MaterialStore :=
  [("M1", matActive), ("M2", matInactive), ("M3", matDeprecated)]

/-- Fixture: requisition line item 1 of manual test PR001. -/
def reqItem1 : RequisitionItem :=
  { item_number := 1, description := "Laptop Computer", quantity := 2,
    unit := "EA", price := 1200 }

/-- Fixture: requisition line item 2 of manual test PR001. -/
def reqItem2 : RequisitionItem :=
  { item_number := 2, description := "Monitor", quantity := 2, unit := "EA",
    price := 300 }

/-- Fixture: a line item referencing the deprecated material M3. -/
def itemDeprecatedRef : RequisitionItem :=
  { item_number := 1, material_number := some "M3",
    description := "Deprecated Material Item", quantity := 10, unit := "EA",
    price := 100 }

/-- Fixture: an approved requisition, as PR001 after approval. -/
def reqApproved : Requisition :=
  { document_number := "PR001", description := "Test Requisition",
    requester := "John Doe", department := "IT",
    items := [reqItem1, reqItem2], status := .APPROVED }

/-- Fixture: a draft requisition, as manual test PR002. -/
def reqDraft : Requisition :=
  { document_number := "PR002", description := "Test Invalid Transitions",
    requester := "Jane Smith", items := [reqItem1] }

/-- Fixture: order line item 1. -/
def ordItem : OrderItem :=
  { item_number := 1, description := "Test Item", quantity := 2, unit := "EA",
    price := 50 }

/-- Fixture: order line item 2. -/
def ordItemSmall : OrderItem :=
  { item_number := 2, description := "Cable", quantity := 4, unit := "EA",
    price := 5 }

/-- Fixture: an approved order with two open lines. -/
def ordApproved : Order :=
  { document_number := "PO002", description := "Direct Order for Testing",
    requester := "Test User", vendor := some "Test Vendor",
    items := [ordItem, ordItemSmall], status := .APPROVED }

/-- Fixture: a completed order. -/
def ordCompleted : Order :=
  { document_number := "PO003", description := "Completed Order",
    requester := "Test User", vendor := some "Test Vendor",
    items := [ordItem], status := .COMPLETED }

/-- Fixture: a P2P store holding the documents above. -/
def fixtureP2P : P2PState :=
  { requisitions := [("PR001", reqApproved), ("PR002", reqDraft)],
    orders := [("PO002", ordApproved), ("PO003", ordCompleted)] }

/-! Properties of the keyed collection. -/

theorem colGet_colAdd_self {α : Type} (k : String) (v : α)
    (c : List (String × α)) : colGet k (colAdd k v c) = some v := by
  induction c with
  | nil => simp [colGet, colAdd, List.find?]
  | cons hd tl ih =>
    by_cases hk : hd.1 == k
    · simp [colGet, colAdd, List.find?, hk]
    · simp only [colAdd, hk, if_false]
      simpa [colGet, List.find?, hk] using ih

theorem colGet_colAdd_ne {α : Type} {k k' : String} (v : α)
    (c : List (String × α)) (h : k ≠ k') :
    colGet k (colAdd k' v c) = colGet k c := by
  have h2 : (k' == k) = false := by
    simp only [beq_eq_false_iff_ne, ne_eq]
    exact fun he => h he.symm
  induction c with
  | nil => simp [colGet, colAdd, List.find?, h2]
  | cons hd tl ih =>
    by_cases hk : hd.1 == k'
    · have h1 : hd.1 = k' := by simpa using hk
      have h3 : (hd.1 == k) = false := by
        simp only [h1, beq_eq_false_iff_ne, ne_eq]
        exact fun he => h he.symm
      simp [colGet, colAdd, List.find?, hk, h2, h3]
    · simp only [colAdd, hk, if_false]
      by_cases hdk : hd.1 == k
      · simp [colGet, List.find?, hdk]
      · simpa [colGet, List.find?, hdk] using ih

theorem colGet_colRemove_self {α : Type} (k : String)
    (c : List (String × α)) : colGet k (colRemove k c) = none := by
  induction c with
  | nil => simp [colGet, colRemove]
  | cons hd tl ih =>
    by_cases hk : hd.1 == k
    · have : (hd.1 != k) = false := by simp [bne, hk]
      simp only [colRemove, List.filter, this] at ih ⊢
      exact ih
    · have : (hd.1 != k) = true := by simp [bne, hk]
      simp only [colRemove, colGet, List.filter, List.find?, this, hk] at ih ⊢
      exact ih

theorem colGet_colRemove_ne {α : Type} {k k' : String}
    (c : List (String × α)) (h : k ≠ k') :
    colGet k (colRemove k' c) = colGet k c := by
  induction c with
  | nil => simp [colGet, colRemove]
  | cons hd tl ih =>
    by_cases hk : hd.1 == k'
    · have h1 : hd.1 = k' := by simpa using hk
      have h2 : (hd.1 == k) = false := by
        simp [beq_iff_eq, h1]; exact fun he => h he.symm
      have : (hd.1 != k') = false := by simp [bne, hk]
      simpa [colRemove, colGet, List.filter, List.find?, this, h2] using ih
    · have : (hd.1 != k') = true := by simp [bne, hk]
      by_cases hdk : hd.1 == k
      · simp [colRemove, colGet, List.filter, List.find?, this, hdk]
      · simpa [colRemove, colGet, List.filter, List.find?, this, hdk] using ih

/-- C9: for every existing material, delete_material fails with
ValidationError while the status is Active, and succeeds returning True when
the status is not Active. -/
theorem delete_material_status_gate (s : MaterialStore) (id : String)
    (m : Material) (hm : colGet id s = some m) :
    (m.status = .ACTIVE →
      delete_material s id =
        (.error (.validation
          "Cannot delete material with status ACTIVE. Deprecate it first."),
         s)) ∧
    (m.status ≠ .ACTIVE →
      delete_material s id = (.ok true, colRemove id s)) := by
  constructor
  · intro h
    simp [delete_material, hm, validate_material_can_be_deleted, h,
      MaterialStatus.str]
  · intro h
    have hv : validate_material_can_be_deleted m.status = true := by
      cases hs : m.status <;> simp_all [validate_material_can_be_deleted]
    simp [delete_material, hm, hv]

/-- Witness for delete_material_status_gate at materials M1 (active) and M2
(inactive) of the fixture store. -/
theorem delete_material_status_gate_witness :
    delete_material fixtureMats "M1" =
      (.error (.validation
        "Cannot delete material with status ACTIVE. Deprecate it first."),
       fixtureMats) ∧
    delete_material fixtureMats "M2" =
      (.ok true, colRemove "M2" fixtureMats) :=
  ⟨(delete_material_status_gate fixtureMats "M1" matActive (by decide)).1
     rfl,
   (delete_material_status_gate fixtureMats "M2" matInactive (by decide)).2
     (by decide)⟩

/-- C10: requisition deletion succeeds returning True exactly in the Draft or
Rejected statuses and otherwise fails with ValidationError; order deletion
succeeds returning True exactly in Draft and otherwise fails with
ValidationError. -/
theorem document_deletion_status_gate (s : P2PState) (num : String)
    (r : Requisition) (o : Order) :
    (colGet num s.requisitions = some r →
      ((r.status = .DRAFT ∨ r.status = .REJECTED) →
        delete_requisition s num =
          (.ok true, { s with requisitions := colRemove num s.requisitions }))
      ∧
      (¬ (r.status = .DRAFT ∨ r.status = .REJECTED) →
        delete_requisition s num =
          (.error (.validation
            ("Cannot delete requisition with status " ++ r.status.str ++
              ". Only DRAFT or REJECTED requisitions can be deleted.")), s)))
    ∧
    (colGet num s.orders = some o →
      (o.status = .DRAFT →
        delete_order s num =
          (.ok true, { s with orders := colRemove num s.orders })) ∧
      (o.status ≠ .DRAFT →
        delete_order s num =
          (.error (.validation
            ("Cannot delete order with status " ++ o.status.str ++
              ". Only DRAFT orders can be deleted.")), s))) := by
  refine ⟨fun hr => ⟨fun h => ?_, fun h => ?_⟩,
          fun ho => ⟨fun h => ?_, fun h => ?_⟩⟩
  · simp [delete_requisition, hr, h]
  · simp [delete_requisition, hr, h]
  · simp [delete_order, ho, h]
  · simp [delete_order, ho, h]

/-- Witness for document_deletion_status_gate: deleting the draft requisition
PR002 succeeds; deleting the approved requisition PR001 fails; deleting the
completed order PO003 fails. -/
theorem document_deletion_status_gate_witness :
    delete_requisition fixtureP2P "PR002" =
      (.ok true,
       { fixtureP2P with
         requisitions := colRemove "PR002" fixtureP2P.requisitions }) ∧
    delete_requisition fixtureP2P "PR001" =
      (.error (.validation
        ("Cannot delete requisition with status " ++
          DocumentStatus.APPROVED.str ++
          ". Only DRAFT or REJECTED requisitions can be deleted.")),
       fixtureP2P) ∧
    delete_order fixtureP2P "PO003" =
      (.error (.validation
        ("Cannot delete order with status " ++ DocumentStatus.COMPLETED.str ++
          ". Only DRAFT orders can be deleted.")), fixtureP2P) :=
  ⟨((document_deletion_status_gate fixtureP2P "PR002" reqDraft
      ordCompleted).1 (by decide)).1 (Or.inl rfl),
   ((document_deletion_status_gate fixtureP2P "PR001" reqApproved
      ordCompleted).1 (by decide)).2 (by decide),
   ((document_deletion_status_gate fixtureP2P "PO003" reqDraft
      ordCompleted).2 (by decide)).2 (by decide)⟩

/-- C8: creating a material whose explicitly supplied number already exists
fails with ConflictError and leaves the store unchanged; creating without a
number assigns the generated number (unique: not yet in the store) and the
status defaults to Active when none is supplied. -/
theorem create_material_conflict_and_defaults (s : MaterialStore)
    (d : MaterialCreate) (genNum : String) :
    (∀ n, d.material_number = some n → (∃ m0, colGet n s = some m0) →
      create_material s d genNum =
        (.error (.conflict
          ("Material with number " ++ n ++ " already exists")), s)) ∧
    (d.material_number = none → colGet genNum s = none →
      ∃ m, create_material s d genNum = (.ok m, colAdd genNum m s) ∧
        m.material_number = genNum ∧ m.status = d.status.getD .ACTIVE ∧
        (d.status = none → m.status = .ACTIVE)) := by
  constructor
  · rintro n hn ⟨m0, hm0⟩
    simp [create_material, hn, hm0]
  · intro hn hfresh
    refine ⟨{ material_number := genNum, name := d.name,
              description := d.description, type := d.type,
              status := d.status.getD .ACTIVE }, ?_, rfl, rfl,
            fun h0 => by simp [h0]⟩
    simp [create_material, hn, dlMatCreate, hfresh]

/-- Witness for create_material_conflict_and_defaults: creating DUP001 twice
makes the second call raise ConflictError, and a creation without a number
yields an Active material carrying the generated number. -/
theorem create_material_conflict_and_defaults_witness :
    (let first := create_material []
      { material_number := some "DUP001", name := "Original Material" } "G1"
     ∃ m1, first.1 = .ok m1 ∧
       create_material first.2
         { material_number := some "DUP001", name := "Duplicate Material" }
         "G2" =
         (.error (.conflict "Material with number DUP001 already exists"),
          first.2)) ∧
    (∃ m, create_material [] { name := "Generated" } "RAW123" =
       (.ok m, colAdd "RAW123" m []) ∧ m.material_number = "RAW123" ∧
       m.status = .ACTIVE) := by
  refine ⟨⟨{ material_number := "DUP001", name := "Original Material" },
           rfl, ?_⟩, ?_⟩
  · exact (create_material_conflict_and_defaults
      (create_material []
        { material_number := some "DUP001", name := "Original Material" }
        "G1").2
      { material_number := some "DUP001", name := "Duplicate Material" }
      "G2").1 "DUP001" rfl
      ⟨{ material_number := "DUP001", name := "Original Material" },
       by decide⟩
  · obtain ⟨m, h1, h2, _, h4⟩ := (create_material_conflict_and_defaults []
      { name := "Generated" } "RAW123").2 rfl rfl
    exact ⟨m, h1, h2, h4 rfl⟩

/-- A deprecated material never leaves the DEPRECATED status through
update_material, whichever record the update targets. -/
theorem update_material_preserves_deprecated (s : MaterialStore)
    (id : String) (u : MaterialUpdate) (n : String) (m : Material)
    (hn : colGet n s = some m) (hdep : m.status = .DEPRECATED)
    (m' : Material) (h : colGet n (update_material s id u).2 = some m') :
    m'.status = .DEPRECATED := by
  by_cases hid : n = id
  · subst hid
    simp only [update_material, hn] at h
    cases hu : u.status with
    | none =>
      simp only [hu] at h
      rw [colGet_colAdd_self] at h
      cases h
      simp [applyMaterialUpdate, hu, hdep]
    | some st =>
      simp only [hu] at h
      by_cases hc : st ≠ m.status ∧
          ¬ validate_material_status_transition m.status st
      · rw [if_pos hc] at h
        rw [hn] at h
        cases h
        exact hdep
      · rw [if_neg hc] at h
        rw [colGet_colAdd_self] at h
        cases h
        have hst : st = .DEPRECATED := by
          by_contra hne
          exact hc ⟨by rw [hdep]; exact hne,
            by rw [hdep]; cases st <;> simp_all
                [validate_material_status_transition]⟩
        simp [applyMaterialUpdate, hu, hst]
  · cases hcg : colGet id s with
    | none =>
      simp only [update_material, hcg] at h
      rw [hn] at h
      cases h
      exact hdep
    | some m0 =>
      simp only [update_material, hcg] at h
      cases hu : u.status with
      | none =>
        simp only [hu] at h
        rw [colGet_colAdd_ne _ _ hid, hn] at h
        cases h
        exact hdep
      | some st =>
        simp only [hu] at h
        by_cases hc : st ≠ m0.status ∧
            ¬ validate_material_status_transition m0.status st
        · rw [if_pos hc] at h
          rw [hn] at h
          cases h
          exact hdep
        · rw [if_neg hc] at h
          rw [colGet_colAdd_ne _ _ hid, hn] at h
          cases h
          exact hdep

/-- The post-state of deprecate_material is either the input store or the
post-state of the underlying status update. -/
theorem deprecate_material_state (s : MaterialStore) (id : String) :
    (deprecate_material s id).2 = s ∨
    (deprecate_material s id).2 =
      (update_material s id { status := some .DEPRECATED }).2 := by
  unfold deprecate_material
  cases hcg : colGet id s with
  | none => exact Or.inl rfl
  | some m =>
    by_cases hv : validate_material_can_be_deprecated m.status
    · simp only [hv, if_true]
      split <;> exact Or.inr rfl
    · simp only [hv, if_false]
      exact Or.inl rfl

/-- The post-state of activate_material is either the input store or the
post-state of the underlying status update. -/
theorem activate_material_state (s : MaterialStore) (id : String) :
    (activate_material s id).2 = s ∨
    (activate_material s id).2 =
      (update_material s id { status := some .ACTIVE }).2 := by
  unfold activate_material
  cases hcg : colGet id s with
  | none => exact Or.inl rfl
  | some m =>
    dsimp only
    by_cases hv : m.status = .DEPRECATED
    · rw [if_pos hv]
      exact Or.inl rfl
    · rw [if_neg hv]
      split <;> exact Or.inr rfl

/-- C5: Deprecated is a terminal material status: deprecating a deprecated
material again fails with ValidationError, any status update away from
DEPRECATED fails with ValidationError, activation fails with ValidationError,
and no material-service operation ever moves a stored material out of the
DEPRECATED status. -/
theorem deprecated_material_terminal (s : MaterialStore) (id : String)
    (m : Material) (hm : colGet id s = some m)
    (hdep : m.status = .DEPRECATED) :
    (∃ msg, deprecate_material s id = (.error (.validation msg), s)) ∧
    (∀ st, st ≠ .DEPRECATED →
      ∃ msg, update_material s id { status := some st } =
        (.error (.validation msg), s)) ∧
    (∃ msg, activate_material s id = (.error (.validation msg), s)) ∧
    (∀ (op : MatOp) (n : String) (m0 m' : Material),
      colGet n s = some m0 → m0.status = .DEPRECATED →
      colGet n (runMatOp s op).2 = some m' → m'.status = .DEPRECATED) := by
  refine ⟨?_, ?_, ?_, ?_⟩
  · refine ⟨"Material with status " ++ m.status.str ++
      " cannot be deprecated. Material is already deprecated.", ?_⟩
    simp [deprecate_material, hm, validate_material_can_be_deprecated, hdep]
  · intro st hst
    have hval : validate_material_status_transition m.status st = false := by
      rw [hdep]
      cases st <;> simp [validate_material_status_transition]
    have hne : st ≠ m.status := by rw [hdep]; exact hst
    refine ⟨"Invalid status transition from " ++ m.status.str ++ " to " ++
      st.str, ?_⟩
    simp only [update_material, hm]
    rw [if_pos ⟨hne, by simp [hval]⟩]
  · exact ⟨"Cannot activate a deprecated material.",
      by simp [activate_material, hm, hdep]⟩
  · intro op n m0 m' hn hdep0 h
    cases op with
    | update id' u =>
      exact update_material_preserves_deprecated s id' u n m0 hn hdep0 m' h
    | create d g =>
      simp only [runMatOp, create_material] at h
      have preserved : ∀ (num : String) (d' : MaterialCreate),
          colGet n (dlMatCreate s num d').2 = some m' →
          m'.status = .DEPRECATED := by
        intro num d' hdl
        unfold dlMatCreate at hdl
        cases hg : colGet num s with
        | some mm =>
          simp only [hg] at hdl
          rw [hn] at hdl
          cases hdl
          exact hdep0
        | none =>
          simp only [hg] at hdl
          have hnn : n ≠ num := by
            intro he
            rw [he, hg] at hn
            exact Option.noConfusion hn
          rw [colGet_colAdd_ne _ _ hnn, hn] at hdl
          cases hdl
          exact hdep0
      cases hd : d.material_number with
      | some n0 =>
        simp only [hd] at h
        cases hg : colGet n0 s with
        | some mm =>
          simp only [hg] at h
          rw [hn] at h
          cases h
          exact hdep0
        | none =>
          simp only [hg] at h
          exact preserved n0 d h
      | none =>
        simp only [hd] at h
        exact preserved g d h
    | delete id' =>
      simp only [runMatOp, delete_material] at h
      cases hg : colGet id' s with
      | none =>
        simp only [hg] at h
        rw [hn] at h
        cases h
        exact hdep0
      | some mm =>
        simp only [hg] at h
        by_cases hv : validate_material_can_be_deleted mm.status
        · rw [if_pos (by simp [hv])] at h
          by_cases hnn : n = id'
          · subst hnn
            rw [colGet_colRemove_self] at h
            exact Option.noConfusion h
          · rw [colGet_colRemove_ne _ hnn, hn] at h
            cases h
            exact hdep0
        · rw [if_neg (by simp_all)] at h
          rw [hn] at h
          cases h
          exact hdep0
    | deprecate id' =>
      have hstate := deprecate_material_state s id'
      simp only [runMatOp] at h
      rcases hstate with hst | hst
      · rw [hst, hn] at h
        cases h
        exact hdep0
      · rw [hst] at h
        exact update_material_preserves_deprecated s id' _ n m0 hn hdep0 m' h
    | activate id' =>
      have hstate := activate_material_state s id'
      simp only [runMatOp] at h
      rcases hstate with hst | hst
      · rw [hst, hn] at h
        cases h
        exact hdep0
      · rw [hst] at h
        exact update_material_preserves_deprecated s id' _ n m0 hn hdep0 m' h

/-- Witness for deprecated_material_terminal at the deprecated fixture
material M3: re-deprecation, reactivation and a status update to ACTIVE all
fail with ValidationError and leave the store unchanged, and re-running the
activation operation leaves M3 DEPRECATED. -/
theorem deprecated_material_terminal_witness :
    (∃ msg, deprecate_material fixtureMats "M3" =
      (.error (.validation msg), fixtureMats)) ∧
    (∃ msg, update_material fixtureMats "M3"
        { status := some .ACTIVE } = (.error (.validation msg), fixtureMats)) ∧
    (∃ msg, activate_material fixtureMats "M3" =
      (.error (.validation msg), fixtureMats)) ∧
    (∀ m', colGet "M3" (runMatOp fixtureMats (.activate "M3")).2 = some m' →
      m'.status = .DEPRECATED) :=
  let h := deprecated_material_terminal fixtureMats "M3" matDeprecated
    (by decide) rfl
  ⟨h.1, h.2.1 .ACTIVE (by decide), h.2.2.1,
   fun m' hm' => h.2.2.2 (.activate "M3") "M3" matDeprecated m' (by decide)
     rfl hm'⟩

/-- C4: for every existing requisition and requested status change outside
the table Draft to Submitted, Submitted to Approved, Submitted to Rejected,
Approved to Ordered, the update call fails with a ValidationError naming the
illegal transition and leaves the store unchanged. -/
theorem requisition_invalid_transition_fails (s : P2PState) (num : String)
    (r : Requisition) (st : DocumentStatus)
    (hr : colGet num s.requisitions = some r) (hne : st ≠ r.status)
    (hinv : validate_requisition_status_transition r.status st = false) :
    update_requisition s num { status := some st } =
      (.error (.validation
        ("Invalid status transition from " ++ r.status.str ++ " to " ++
          st.str)), s) := by
  have hchk : checkReqStatusChange r { status := some st } =
      .error (.validation ("Invalid status transition from " ++
        r.status.str ++ " to " ++ st.str)) := by
    simp only [checkReqStatusChange]
    rw [if_neg hne, if_pos (by simp [hinv])]
  simp only [update_requisition, hr]
  rw [if_neg (by simp)]
  simp [hchk]

/-- Witness for requisition_invalid_transition_fails: skipping the draft
requisition PR002 straight to APPROVED is rejected with the transition named
in the message and the store unchanged. -/
theorem requisition_invalid_transition_fails_witness :
    update_requisition fixtureP2P "PR002" { status := some .APPROVED } =
      (.error (.validation
        ("Invalid status transition from " ++ DocumentStatus.DRAFT.str ++
          " to " ++ DocumentStatus.APPROVED.str)), fixtureP2P) :=
  requisition_invalid_transition_fails fixtureP2P "PR002" reqDraft .APPROVED
    (by decide) (by decide) (by decide)

/-- C3: for every existing order and requested status change outside the
table Draft to Submitted, Submitted to Approved, Approved to
PartiallyReceived or Received, Received or PartiallyReceived to Completed,
non-terminal to Canceled, the update fails with a validation error and leaves
the store unchanged; Completed and Canceled orders cannot be canceled, by the
table and by cancel_order alike. -/
theorem order_invalid_transition_fails (s : P2PState) (num : String)
    (o : Order) (st : DocumentStatus) (reason : String)
    (ho : colGet num s.orders = some o) :
    (st ≠ o.status → validate_order_status_transition o.status st = false →
      update_order s num { status := some st } =
        (.error (.validation
          ("Invalid status transition from " ++ o.status.str ++ " to " ++
            st.str)), s)) ∧
    validate_order_status_transition .COMPLETED .CANCELED = false ∧
    validate_order_status_transition .CANCELED .CANCELED = false ∧
    (o.status = .COMPLETED ∨ o.status = .CANCELED →
      cancel_order s num reason =
        (.error (.validation
          ("Cannot cancel order with status " ++ o.status.str ++ ".")), s)) := by
  refine ⟨fun hne hinv => ?_, rfl, rfl, fun hterm => ?_⟩
  · have hchk : checkOrdStatusChange o { status := some st } =
        .error (.validation ("Invalid status transition from " ++
          o.status.str ++ " to " ++ st.str)) := by
      simp only [checkOrdStatusChange]
      rw [if_neg hne, if_pos (by simp [hinv])]
    simp only [update_order, ho]
    rw [if_neg (by simp)]
    simp [hchk]
  · simp only [cancel_order, ho]
    rw [if_pos hterm]

/-- Witness for order_invalid_transition_fails: the approved order PO002 is
refused a direct jump to COMPLETED, and the completed order PO003 cannot be
canceled. -/
theorem order_invalid_transition_fails_witness :
    update_order fixtureP2P "PO002" { status := some .COMPLETED } =
      (.error (.validation
        ("Invalid status transition from " ++ DocumentStatus.APPROVED.str ++
          " to " ++ DocumentStatus.COMPLETED.str)), fixtureP2P) ∧
    cancel_order fixtureP2P "PO003" "no longer needed" =
      (.error (.validation
        ("Cannot cancel order with status " ++ DocumentStatus.COMPLETED.str ++
          ".")), fixtureP2P) :=
  ⟨(order_invalid_transition_fails fixtureP2P "PO002" ordApproved .COMPLETED
      "no longer needed" (by decide)).1 (by decide) (by decide),
   (order_invalid_transition_fails fixtureP2P "PO003" ordCompleted .CANCELED
      "no longer needed" (by decide)).2.2.2 (Or.inl rfl)⟩

/-- C1: receiving an approved order applies the per-line received quantities
(defaulting each unspecified line to its full ordered quantity) and derives
the resulting status from the updated lines alone: Received when every line
is fully received, PartiallyReceived when some but not all lines are, and the
status is unchanged otherwise; no caller-supplied status is involved. -/
theorem receive_order_derives_status (s : P2PState) (num : String)
    (o : Order) (ri : Option (List (Nat × Rat)))
    (items : List OrderItem) (newst : DocumentStatus)
    (ho : colGet num s.orders = some o) (hst : o.status = .APPROVED)
    (hitems : items = prepare_received_items o ri)
    (hnew : newst = determine_order_status_from_items items o.status) :
    receive_order s num ri =
      (.ok { o with items := items, status := newst },
       { s with orders := colAdd num ({ o with items := items, status := newst }) s.orders }) ∧
    (ri = none → items = o.items.map (fun it =>
      { it with received_quantity := it.quantity })) ∧
    (∀ l, ri = some l → items = o.items.map (fun it =>
      { it with received_quantity :=
          (l.lookup it.item_number).getD it.quantity })) ∧
    ((∀ it ∈ items, it.quantity ≤ it.received_quantity) →
      newst = .RECEIVED) ∧
    ((∃ it ∈ items, it.quantity ≤ it.received_quantity) →
     (∃ it ∈ items, ¬ it.quantity ≤ it.received_quantity) →
      newst = .PARTIALLY_RECEIVED) ∧
    (items ≠ [] → (∀ it ∈ items, ¬ it.quantity ≤ it.received_quantity) →
      newst = o.status) := by
  have hshape : newst = .RECEIVED ∨ newst = .PARTIALLY_RECEIVED ∨
      newst = o.status := by
    rw [hnew]
    unfold determine_order_status_from_items
    split
    · exact Or.inl rfl
    · split
      · exact Or.inr (Or.inl rfl)
      · exact Or.inr (Or.inr rfl)
  have hchk : checkOrdStatusChange o
      { items := some items, status := some newst } = .ok () := by
    simp only [checkOrdStatusChange]
    by_cases hns : newst = o.status
    · rw [if_pos hns]
    · rw [if_neg hns]
      have hv : validate_order_status_transition o.status newst = true := by
        rcases hshape with h1 | h1 | h1
        · rw [h1, hst]; rfl
        · rw [h1, hst]; rfl
        · exact absurd h1 hns
      have hsub : newst ≠ .SUBMITTED := by
        rcases hshape with h1 | h1 | h1
        · rw [h1]; simp
        · rw [h1]; simp
        · exact absurd h1 hns
      rw [if_neg (not_not_intro hv), if_neg (fun hq => hsub hq.1)]
  refine ⟨?_, fun hri => by subst hri; rw [hitems]; rfl,
    fun l hri => by subst hri; rw [hitems]; rfl, ?_, ?_, ?_⟩
  · simp only [receive_order, ho]
    rw [if_neg (by simp [hst])]
    rw [← hitems, ← hnew]
    simp only [update_order, ho]
    rw [if_neg (by simp)]
    simp only [hchk]
    simp [applyOrderUpdate]
  · intro hall
    have hb : items.all (fun it =>
        decide (it.quantity ≤ it.received_quantity)) = true := by
      simp only [List.all_eq_true, decide_eq_true_eq]
      exact hall
    rw [hnew]
    unfold determine_order_status_from_items
    rw [if_pos hb]
  · rintro ⟨it1, hm1, h1⟩ ⟨it2, hm2, h2⟩
    have hb : ¬ items.all (fun it =>
        decide (it.quantity ≤ it.received_quantity)) = true := by
      simp only [List.all_eq_true, decide_eq_true_eq]
      intro hallc
      exact h2 (hallc it2 hm2)
    have ha : items.any (fun it =>
        decide (it.quantity ≤ it.received_quantity)) = true := by
      simp only [List.any_eq_true, decide_eq_true_eq]
      exact ⟨it1, hm1, h1⟩
    rw [hnew]
    unfold determine_order_status_from_items
    rw [if_neg hb, if_pos ha]
  · intro hne hnone
    obtain ⟨it0, hm0⟩ := List.exists_mem_of_ne_nil items hne
    have hb : ¬ items.all (fun it =>
        decide (it.quantity ≤ it.received_quantity)) = true := by
      simp only [List.all_eq_true, decide_eq_true_eq]
      intro hallc
      exact hnone it0 hm0 (hallc it0 hm0)
    have ha : ¬ items.any (fun it =>
        decide (it.quantity ≤ it.received_quantity)) = true := by
      simp only [List.any_eq_true, decide_eq_true_eq]
      rintro ⟨it3, hm3, h3⟩
      exact hnone it3 hm3 h3
    rw [hnew]
    unfold determine_order_status_from_items
    rw [if_neg hb, if_neg ha]

/-- Witness for receive_order_derives_status: receiving the approved order
PO002 with line 1 in full and one unit of line 2 yields exactly those received
quantities and the derived status PartiallyReceived. -/
theorem receive_order_derives_status_witness :
    receive_order fixtureP2P "PO002" (some [(1, 2), (2, 1)]) =
      (.ok ({ ordApproved with items := [{ ordItem with received_quantity := 2 }, { ordItemSmall with received_quantity := 1 }], status := .PARTIALLY_RECEIVED }),
       { fixtureP2P with orders := colAdd "PO002" ({ ordApproved with items := [{ ordItem with received_quantity := 2 }, { ordItemSmall with received_quantity := 1 }], status := .PARTIALLY_RECEIVED }) fixtureP2P.orders }) :=
  (receive_order_derives_status fixtureP2P "PO002" ordApproved
    (some [(1, 2), (2, 1)])
    [{ ordItem with received_quantity := 2 },
     { ordItemSmall with received_quantity := 1 }]
    .PARTIALLY_RECEIVED (by decide) rfl (by decide) (by decide)).1

/-- Mapping a function over a list relates the image to the source pointwise. -/
theorem forall₂_map_self {α β : Type} (f : α → β) (P : β → α → Prop)
    (l : List α) (h : ∀ x ∈ l, P (f x) x) : List.Forall₂ P (l.map f) l := by
  induction l with
  | nil => exact .nil
  | cons hd tl ih =>
    exact .cons (h hd (List.mem_cons_self hd tl))
      (ih fun x hx => h x (List.mem_cons_of_mem hd hx))

/-- C2: converting a requisition that is not Approved fails with
ValidationError and leaves the store unchanged; converting an Approved
requisition succeeds, producing an order whose lines copy each requisition
line's quantity, unit and price with the back-reference pair stamped on both
sides, setting the requisition's status to Ordered and marking each source
item as assigned to the new order number. -/
theorem create_order_from_requisition_spec (s : P2PState)
    (reqNum vendor : String) (terms : Option String) (genNum : String)
    (r : Requisition) (hr : colGet reqNum s.requisitions = some r) :
    (r.status ≠ .APPROVED →
      create_order_from_requisition s reqNum vendor terms genNum =
        (.error (.validation
          ("Cannot create order from requisition with status " ++
            r.status.str ++ ". Must be APPROVED.")), s)) ∧
    (r.status = .APPROVED → vendor ≠ "" → colGet genNum s.orders = none →
      ∃ o s', create_order_from_requisition s reqNum vendor terms genNum =
          (.ok o, s') ∧
        o.document_number = genNum ∧ o.vendor = some vendor ∧
        o.payment_terms = terms ∧
        o.requisition_reference = some r.document_number ∧
        List.Forall₂ (fun (oi : OrderItem) (qi : RequisitionItem) =>
          oi.item_number = qi.item_number ∧ oi.quantity = qi.quantity ∧
          oi.unit = qi.unit ∧ oi.price = qi.price ∧
          oi.requisition_reference = some r.document_number ∧
          oi.requisition_item = some qi.item_number) o.items r.items ∧
        colGet genNum s'.orders = some o ∧
        (∃ r', colGet reqNum s'.requisitions = some r' ∧
          r'.status = .ORDERED ∧
          r'.items = r.items.map (fun it =>
            { it with assigned_to_order := some genNum }))) := by
  constructor
  · intro h
    simp only [create_order_from_requisition, hr]
    rw [if_pos h]
  · intro ha hv hg
    have hvv : validate_vendor (some vendor) = true := by
      simp [validate_vendor, hv]
    simp only [create_order_from_requisition, hr]
    rw [if_neg (by simp [ha]), if_neg (by simp [hvv])]
    simp only [dlCreateOrderFromRequisition, hr, hg]
    refine ⟨_, _, rfl, rfl, rfl, rfl, rfl, ?_, ?_, ?_⟩
    · exact forall₂_map_self _ _ _ fun x hx => ⟨rfl, rfl, rfl, rfl, rfl, rfl⟩
    · exact colGet_colAdd_self _ _ _
    · exact ⟨_, colGet_colAdd_self _ _ _, rfl, rfl⟩

/-- Witness for create_order_from_requisition_spec: converting the approved
requisition PR001 with vendor ABC Computers succeeds with the stamped
back-references, and converting the draft requisition PR002 fails. -/
theorem create_order_from_requisition_spec_witness :
    (∃ o s', create_order_from_requisition fixtureP2P "PR001"
        "ABC Computers" (some "Net 30") "PO100" = (.ok o, s') ∧
      o.document_number = "PO100" ∧ o.vendor = some "ABC Computers" ∧
      o.payment_terms = some "Net 30" ∧
      o.requisition_reference = some reqApproved.document_number ∧
      List.Forall₂ (fun (oi : OrderItem) (qi : RequisitionItem) =>
        oi.item_number = qi.item_number ∧ oi.quantity = qi.quantity ∧
        oi.unit = qi.unit ∧ oi.price = qi.price ∧
        oi.requisition_reference = some reqApproved.document_number ∧
        oi.requisition_item = some qi.item_number) o.items
        reqApproved.items ∧
      colGet "PO100" s'.orders = some o ∧
      (∃ r', colGet "PR001" s'.requisitions = some r' ∧
        r'.status = .ORDERED ∧
        r'.items = reqApproved.items.map (fun it =>
          { it with assigned_to_order := some "PO100" }))) ∧
    create_order_from_requisition fixtureP2P "PR002" "ABC Computers"
        (some "Net 30") "PO101" =
      (.error (.validation
        ("Cannot create order from requisition with status " ++
          DocumentStatus.DRAFT.str ++ ". Must be APPROVED.")), fixtureP2P) :=
  ⟨(create_order_from_requisition_spec fixtureP2P "PR001" "ABC Computers"
      (some "Net 30") "PO100" reqApproved (by decide)).2 rfl (by decide)
      (by decide),
   (create_order_from_requisition_spec fixtureP2P "PR002" "ABC Computers"
      (some "Net 30") "PO101" reqDraft (by decide)).1 (by decide)⟩

/-- Resolving one material reference either passes (the material exists and
is not deprecated) or yields a ValidationError mentioning the number. -/
theorem validate_material_active_cases (mats : MaterialStore) (n : String) :
    (validate_material_active mats n = .ok () ∧
      ∃ m, colGet n mats = some m ∧ m.status ≠ .DEPRECATED) ∨
    (∃ msg, validate_material_active mats n = .error (.validation msg) ∧
      mentions msg n ∧
      (colGet n mats = none ∨
        ∃ m, colGet n mats = some m ∧ m.status = .DEPRECATED)) := by
  unfold validate_material_active
  cases hg : colGet n mats with
  | none =>
    right
    exact ⟨_, rfl, ⟨"Invalid material ", ": not found", rfl⟩, Or.inl rfl⟩
  | some m =>
    dsimp only
    by_cases hdep : m.status = .DEPRECATED
    · rw [if_pos hdep]
      right
      exact ⟨_, rfl, ⟨"Invalid material ", ": material is deprecated", rfl⟩,
        Or.inr ⟨m, rfl, hdep⟩⟩
    · rw [if_neg hdep]
      left
      exact ⟨rfl, m, rfl, hdep⟩

/-- Validating the material references of a requisition item list either
passes, with every referenced material present and not deprecated, or fails
with a ValidationError mentioning an offending material number. -/
theorem validate_req_items_materials_spec (mats : MaterialStore)
    (items : List RequisitionItem) :
    (validate_req_items_materials mats items = .ok () ∧
      ∀ it ∈ items, ∀ n, it.material_number = some n →
        ∃ m, colGet n mats = some m ∧ m.status ≠ .DEPRECATED) ∨
    (∃ n, (∃ it ∈ items, it.material_number = some n) ∧
      (colGet n mats = none ∨
        ∃ m, colGet n mats = some m ∧ m.status = .DEPRECATED) ∧
      ∃ msg, validate_req_items_materials mats items =
        .error (.validation msg) ∧ mentions msg n) := by
  induction items with
  | nil =>
    left
    exact ⟨rfl, by simp⟩
  | cons hd tl ih =>
    cases hmn : hd.material_number with
    | none =>
      have hstep : validate_req_items_materials mats (hd :: tl) =
          validate_req_items_materials mats tl := by
        simp [validate_req_items_materials, hmn]
      rcases ih with ⟨hok, hall⟩ | ⟨n, ⟨it, hit, hn⟩, hbad, msg, herr, hm⟩
      · left
        refine ⟨hstep.trans hok, ?_⟩
        intro it hit n hn
        rcases List.mem_cons.mp hit with he | hit'
        · subst he
          rw [hmn] at hn
          exact Option.noConfusion hn
        · exact hall it hit' n hn
      · right
        exact ⟨n, ⟨it, List.mem_cons_of_mem hd hit, hn⟩, hbad, msg,
          hstep.trans herr, hm⟩
    | some n0 =>
      rcases validate_material_active_cases mats n0 with
        ⟨hok0, m0, hg0, hd0⟩ | ⟨msg, herr0, hm0, hbad0⟩
      · have hstep : validate_req_items_materials mats (hd :: tl) =
            validate_req_items_materials mats tl := by
          simp [validate_req_items_materials, hmn, hok0]
        rcases ih with ⟨hok, hall⟩ | ⟨n, ⟨it, hit, hn⟩, hbad, msg, herr, hm⟩
        · left
          refine ⟨hstep.trans hok, ?_⟩
          intro it hit n hn
          rcases List.mem_cons.mp hit with he | hit'
          · subst he
            rw [hmn] at hn
            cases hn
            exact ⟨m0, hg0, hd0⟩
          · exact hall it hit' n hn
        · right
          exact ⟨n, ⟨it, List.mem_cons_of_mem hd hit, hn⟩, hbad, msg,
            hstep.trans herr, hm⟩
      · right
        refine ⟨n0, ⟨hd, List.mem_cons_self hd tl, hmn⟩, hbad0, msg, ?_, hm0⟩
        simp [validate_req_items_materials, hmn, herr0]

/-- Validating the material references of an order item list either passes,
with every referenced material present and not deprecated, or fails with a
ValidationError mentioning an offending material number. -/
theorem validate_ord_items_materials_spec (mats : MaterialStore)
    (items : List OrderItem) :
    (validate_ord_items_materials mats items = .ok () ∧
      ∀ it ∈ items, ∀ n, it.material_number = some n →
        ∃ m, colGet n mats = some m ∧ m.status ≠ .DEPRECATED) ∨
    (∃ n, (∃ it ∈ items, it.material_number = some n) ∧
      (colGet n mats = none ∨
        ∃ m, colGet n mats = some m ∧ m.status = .DEPRECATED) ∧
      ∃ msg, validate_ord_items_materials mats items =
        .error (.validation msg) ∧ mentions msg n) := by
  induction items with
  | nil =>
    left
    exact ⟨rfl, by simp⟩
  | cons hd tl ih =>
    cases hmn : hd.material_number with
    | none =>
      have hstep : validate_ord_items_materials mats (hd :: tl) =
          validate_ord_items_materials mats tl := by
        simp [validate_ord_items_materials, hmn]
      rcases ih with ⟨hok, hall⟩ | ⟨n, ⟨it, hit, hn⟩, hbad, msg, herr, hm⟩
      · left
        refine ⟨hstep.trans hok, ?_⟩
        intro it hit n hn
        rcases List.mem_cons.mp hit with he | hit'
        · subst he
          rw [hmn] at hn
          exact Option.noConfusion hn
        · exact hall it hit' n hn
      · right
        exact ⟨n, ⟨it, List.mem_cons_of_mem hd hit, hn⟩, hbad, msg,
          hstep.trans herr, hm⟩
    | some n0 =>
      rcases validate_material_active_cases mats n0 with
        ⟨hok0, m0, hg0, hd0⟩ | ⟨msg, herr0, hm0, hbad0⟩
      · have hstep : validate_ord_items_materials mats (hd :: tl) =
            validate_ord_items_materials mats tl := by
          simp [validate_ord_items_materials, hmn, hok0]
        rcases ih with ⟨hok, hall⟩ | ⟨n, ⟨it, hit, hn⟩, hbad, msg, herr, hm⟩
        · left
          refine ⟨hstep.trans hok, ?_⟩
          intro it hit n hn
          rcases List.mem_cons.mp hit with he | hit'
          · subst he
            rw [hmn] at hn
            cases hn
            exact ⟨m0, hg0, hd0⟩
          · exact hall it hit' n hn
        · right
          exact ⟨n, ⟨it, List.mem_cons_of_mem hd hit, hn⟩, hbad, msg,
            hstep.trans herr, hm⟩
      · right
        refine ⟨n0, ⟨hd, List.mem_cons_self hd tl, hmn⟩, hbad0, msg, ?_, hm0⟩
        simp [validate_ord_items_materials, hmn, herr0]

/-- C6 counterexample: updating the draft requisition PR002 to carry a line
referencing the deprecated material M3 raises no error at all — the update
path performs no material resolution — and stores the deprecated reference,
refuting the claim that updates fail with ValidationError on deprecated
material references. -/
theorem material_refs_not_checked_on_update :
    matDeprecated.status = .DEPRECATED ∧
    colGet "M3" fixtureMats = some matDeprecated ∧
    itemDeprecatedRef.material_number = some "M3" ∧
    (runP2POp fixtureMats fixtureP2P
      (.updateReq "PR002" { items := some [itemDeprecatedRef] })).1 = none ∧
    colGet "PR002" (runP2POp fixtureMats fixtureP2P
        (.updateReq "PR002"
          { items := some [itemDeprecatedRef] })).2.requisitions =
      some ({ reqDraft with items := [itemDeprecatedRef] }) := by
  refine ⟨rfl, by decide, rfl, by decide, by decide⟩

/-- C6 amended: material references are resolved on document creation only:
creating a requisition or order whose items all reference existing,
non-deprecated materials passes the material validation (Inactive materials
are permitted), while a reference to a missing or Deprecated material makes
the creation fail with a ValidationError mentioning an offending material
number and leaves the store unchanged; update operations perform no material
resolution. -/
theorem material_refs_checked_on_create (mats : MaterialStore) (s : P2PState)
    (d : RequisitionCreate) (dOrd : OrderCreate) :
    ((∀ it ∈ d.items, ∀ n, it.material_number = some n →
        ∃ m, colGet n mats = some m ∧ m.status ≠ .DEPRECATED) →
      create_requisition mats s d = dlCreateRequisition s d) ∧
    ((∃ it ∈ d.items, ∃ n, it.material_number = some n ∧
        (colGet n mats = none ∨
          ∃ m, colGet n mats = some m ∧ m.status = .DEPRECATED)) →
      ∃ n msg, (∃ it ∈ d.items, it.material_number = some n) ∧
        (colGet n mats = none ∨
          ∃ m, colGet n mats = some m ∧ m.status = .DEPRECATED) ∧
        create_requisition mats s d = (.error (.validation msg), s) ∧
        mentions msg n) ∧
    (validate_vendor dOrd.vendor = true →
      ((∀ it ∈ dOrd.items, ∀ n, it.material_number = some n →
          ∃ m, colGet n mats = some m ∧ m.status ≠ .DEPRECATED) →
        create_order mats s dOrd = dlCreateOrder s dOrd) ∧
      ((∃ it ∈ dOrd.items, ∃ n, it.material_number = some n ∧
          (colGet n mats = none ∨
            ∃ m, colGet n mats = some m ∧ m.status = .DEPRECATED)) →
        ∃ n msg, (∃ it ∈ dOrd.items, it.material_number = some n) ∧
          (colGet n mats = none ∨
            ∃ m, colGet n mats = some m ∧ m.status = .DEPRECATED) ∧
          create_order mats s dOrd = (.error (.validation msg), s) ∧
          mentions msg n)) := by
  refine ⟨?_, ?_, fun hvv => ⟨?_, ?_⟩⟩
  · intro hall
    rcases validate_req_items_materials_spec mats d.items with
      ⟨hok, _⟩ | ⟨n, ⟨it, hit, hn⟩, hbad, msg, herr, hm⟩
    · simp [create_requisition, hok]
    · rcases hbad with hnone | ⟨m, hg, hdep⟩
      · obtain ⟨m, hg, _⟩ := hall it hit n hn
        rw [hnone] at hg
        exact Option.noConfusion hg
      · obtain ⟨m', hg', hd'⟩ := hall it hit n hn
        rw [hg] at hg'
        cases hg'
        exact absurd hdep hd'
  · intro hbadex
    rcases validate_req_items_materials_spec mats d.items with
      ⟨hok, hall⟩ | ⟨n, hex, hbad, msg, herr, hm⟩
    · obtain ⟨it, hit, n, hn, hbad⟩ := hbadex
      obtain ⟨m, hg, hd'⟩ := hall it hit n hn
      rcases hbad with hnone | ⟨m', hg', hdep⟩
      · rw [hnone] at hg
        exact Option.noConfusion hg
      · rw [hg] at hg'
        cases hg'
        exact absurd hdep hd'
    · refine ⟨n, msg, hex, hbad, ?_, hm⟩
      simp [create_requisition, herr]
  · intro hall
    rcases validate_ord_items_materials_spec mats dOrd.items with
      ⟨hok, _⟩ | ⟨n, ⟨it, hit, hn⟩, hbad, msg, herr, hm⟩
    · simp [create_order, hvv, hok]
    · rcases hbad with hnone | ⟨m, hg, hdep⟩
      · obtain ⟨m, hg, _⟩ := hall it hit n hn
        rw [hnone] at hg
        exact Option.noConfusion hg
      · obtain ⟨m', hg', hd'⟩ := hall it hit n hn
        rw [hg] at hg'
        cases hg'
        exact absurd hdep hd'
  · intro hbadex
    rcases validate_ord_items_materials_spec mats dOrd.items with
      ⟨hok, hall⟩ | ⟨n, hex, hbad, msg, herr, hm⟩
    · obtain ⟨it, hit, n, hn, hbad⟩ := hbadex
      obtain ⟨m, hg, hd'⟩ := hall it hit n hn
      rcases hbad with hnone | ⟨m', hg', hdep⟩
      · rw [hnone] at hg
        exact Option.noConfusion hg
      · rw [hg] at hg'
        cases hg'
        exact absurd hdep hd'
    · refine ⟨n, msg, hex, hbad, ?_, hm⟩
      simp [create_order, hvv, herr]

/-- Witness for material_refs_checked_on_create: creating a requisition whose
single line references the deprecated material M3 fails with a
ValidationError mentioning M3, while the same creation referencing the
inactive material M2 passes the material validation. -/
theorem material_refs_checked_on_create_witness :
    (∃ n msg,
      (∃ it ∈ [itemDeprecatedRef], it.material_number = some n) ∧
      (colGet n fixtureMats = none ∨
        ∃ m, colGet n fixtureMats = some m ∧ m.status = .DEPRECATED) ∧
      create_requisition fixtureMats fixtureP2P
          { document_number := "PR900",
            description := "Requisition with Deprecated Material",
            requester := "Test User", items := [itemDeprecatedRef] } =
        (.error (.validation msg), fixtureP2P) ∧
      mentions msg n) ∧
    create_requisition fixtureMats fixtureP2P
        { document_number := "PR901",
          description := "Requisition with Inactive Material",
          requester := "Test User",
          items := [{ itemDeprecatedRef with material_number := some "M2" }] }
      = dlCreateRequisition fixtureP2P
        { document_number := "PR901",
          description := "Requisition with Inactive Material",
          requester := "Test User",
          items :=
            [{ itemDeprecatedRef with material_number := some "M2" }] } :=
  ⟨(material_refs_checked_on_create fixtureMats fixtureP2P
      { document_number := "PR900",
        description := "Requisition with Deprecated Material",
        requester := "Test User", items := [itemDeprecatedRef] }
      { document_number := "X", description := "X", requester := "X" }).2.1
     ⟨itemDeprecatedRef, List.mem_cons_self _ _, "M3", rfl,
      Or.inr ⟨matDeprecated, by decide, rfl⟩⟩,
   (material_refs_checked_on_create fixtureMats fixtureP2P
      { document_number := "PR901",
        description := "Requisition with Inactive Material",
        requester := "Test User",
        items := [{ itemDeprecatedRef with material_number := some "M2" }] }
      { document_number := "X", description := "X", requester := "X" }).1
     (by intro it hit n hn
         rcases List.mem_cons.mp hit with he | he
         · subst he
           cases hn
           exact ⟨matInactive, by decide, by decide⟩
         · cases he)⟩

/-- update_material leaves the store untouched whenever it reports an
error. -/
theorem update_material_err_state (s : MaterialStore) (id : String)
    (u : MaterialUpdate) :
    (errOf (update_material s id u).1).isSome →
    (update_material s id u).2 = s := by
  intro h
  unfold update_material at h ⊢
  cases hcg : colGet id s with
  | none => simp [hcg]
  | some m =>
    simp only [hcg] at h ⊢
    cases hu : u.status with
    | none =>
      simp only [hu] at h
      simp [errOf] at h
    | some st =>
      simp only [hu] at h ⊢
      by_cases hc : st ≠ m.status ∧
          ¬ validate_material_status_transition m.status st
      · rw [if_pos hc]
      · rw [if_neg hc] at h
        simp [errOf] at h

/-- create_material leaves the store untouched whenever it reports an
error. -/
theorem create_material_err_state (s : MaterialStore) (d : MaterialCreate)
    (genNum : String) :
    (errOf (create_material s d genNum).1).isSome →
    (create_material s d genNum).2 = s := by
  intro h
  unfold create_material at h ⊢
  have hdl : ∀ num, (errOf (dlMatCreate s num d).1).isSome →
      (dlMatCreate s num d).2 = s := by
    intro num hh
    unfold dlMatCreate at hh ⊢
    cases hg : colGet num s with
    | some m => simp [hg]
    | none =>
      simp only [hg] at hh
      simp [errOf] at hh
  cases hn : d.material_number with
  | none =>
    simp only [hn] at h ⊢
    exact hdl genNum h
  | some n =>
    simp only [hn] at h ⊢
    cases hg : colGet n s with
    | some m => simp [hg]
    | none =>
      simp only [hg] at h ⊢
      exact hdl n h

/-- delete_material leaves the store untouched whenever it reports an
error. -/
theorem delete_material_err_state (s : MaterialStore) (id : String) :
    (errOf (delete_material s id).1).isSome →
    (delete_material s id).2 = s := by
  intro h
  unfold delete_material at h ⊢
  cases hcg : colGet id s with
  | none => simp [hcg]
  | some m =>
    simp only [hcg] at h ⊢
    by_cases hv : validate_material_can_be_deleted m.status
    · rw [if_pos (by simp [hv])] at h
      simp [errOf] at h
    · rw [if_neg (by simp [hv])] at h ⊢

/-- deprecate_material leaves the store untouched whenever it reports an
error. -/
theorem deprecate_material_err_state (s : MaterialStore) (id : String) :
    (errOf (deprecate_material s id).1).isSome →
    (deprecate_material s id).2 = s := by
  intro h
  unfold deprecate_material at h ⊢
  cases hcg : colGet id s with
  | none => simp [hcg]
  | some m =>
    simp only [hcg] at h ⊢
    by_cases hv : validate_material_can_be_deprecated m.status
    · rw [if_pos hv] at h ⊢
      have hupd := update_material_err_state s id
        { status := some .DEPRECATED }
      cases hr1 : (update_material s id { status := some .DEPRECATED }).1 with
      | ok m' =>
        simp only [hr1] at h
        simp [errOf] at h
      | error e =>
        have h2 : (update_material s id { status := some .DEPRECATED }).2 =
            s := hupd (by rw [hr1]; rfl)
        cases e <;> simp [hr1, h2]
    · rw [if_neg hv]

/-- activate_material leaves the store untouched whenever it reports an
error. -/
theorem activate_material_err_state (s : MaterialStore) (id : String) :
    (errOf (activate_material s id).1).isSome →
    (activate_material s id).2 = s := by
  intro h
  unfold activate_material at h ⊢
  cases hcg : colGet id s with
  | none => simp [hcg]
  | some m =>
    simp only [hcg] at h ⊢
    by_cases hv : m.status = .DEPRECATED
    · rw [if_pos hv]
    · rw [if_neg hv] at h ⊢
      have hupd := update_material_err_state s id { status := some .ACTIVE }
      cases hr1 : (update_material s id { status := some .ACTIVE }).1 with
      | ok m' =>
        simp only [hr1] at h
        simp [errOf] at h
      | error e =>
        have h2 : (update_material s id { status := some .ACTIVE }).2 = s :=
          hupd (by rw [hr1]; rfl)
        cases e <;> simp [hr1, h2]

/-- update_requisition leaves the store untouched whenever it reports an
error. -/
theorem update_requisition_err_state (s : P2PState) (num : String)
    (u : RequisitionUpdate) :
    (errOf (update_requisition s num u).1).isSome →
    (update_requisition s num u).2 = s := by
  intro h
  unfold update_requisition at h ⊢
  cases hcg : colGet num s.requisitions with
  | none => simp [hcg]
  | some r =>
    simp only [hcg] at h ⊢
    by_cases hc : r.status ≠ .DRAFT ∧ u.items.isSome ∧ u.status = none
    · rw [if_pos hc]
    · rw [if_neg hc] at h ⊢
      cases hchk : checkReqStatusChange r u with
      | error e => simp [hchk]
      | ok v =>
        simp only [hchk] at h
        simp [errOf] at h

/-- update_order leaves the store untouched whenever it reports an error. -/
theorem update_order_err_state (s : P2PState) (num : String)
    (u : OrderUpdate) :
    (errOf (update_order s num u).1).isSome →
    (update_order s num u).2 = s := by
  intro h
  unfold update_order at h ⊢
  cases hcg : colGet num s.orders with
  | none => simp [hcg]
  | some o =>
    simp only [hcg] at h ⊢
    by_cases hc : o.status ≠ .DRAFT ∧ u.items.isSome ∧ u.status = none
    · rw [if_pos hc]
    · rw [if_neg hc] at h ⊢
      cases hchk : checkOrdStatusChange o u with
      | error e => simp [hchk]
      | ok v =>
        simp only [hchk] at h
        simp [errOf] at h

/-- create_requisition leaves the store untouched whenever it reports an
error. -/
theorem create_requisition_err_state (mats : MaterialStore) (s : P2PState)
    (d : RequisitionCreate) :
    (errOf (create_requisition mats s d).1).isSome →
    (create_requisition mats s d).2 = s := by
  intro h
  unfold create_requisition at h ⊢
  cases hv : validate_req_items_materials mats d.items with
  | error e => simp [hv]
  | ok v =>
    simp only [hv] at h ⊢
    unfold dlCreateRequisition at h ⊢
    cases hg : colGet d.document_number s.requisitions with
    | some r => simp [hg]
    | none =>
      simp only [hg] at h
      simp [errOf] at h

/-- submit_requisition leaves the store untouched whenever it reports an
error. -/
theorem submit_requisition_err_state (s : P2PState) (num : String) :
    (errOf (submit_requisition s num).1).isSome →
    (submit_requisition s num).2 = s := by
  intro h
  unfold submit_requisition at h ⊢
  cases hcg : colGet num s.requisitions with
  | none => simp [hcg]
  | some r =>
    simp only [hcg] at h ⊢
    by_cases h1 : r.status ≠ .DRAFT
    · rw [if_pos h1]
    · rw [if_neg h1] at h ⊢
      by_cases h2 : ¬ validate_requisition_items r.items
      · rw [if_pos h2]
      · rw [if_neg h2] at h ⊢
        exact update_requisition_err_state s num _ h

/-- approve_requisition leaves the store untouched whenever it reports an
error. -/
theorem approve_requisition_err_state (s : P2PState) (num : String) :
    (errOf (approve_requisition s num).1).isSome →
    (approve_requisition s num).2 = s := by
  intro h
  unfold approve_requisition at h ⊢
  cases hcg : colGet num s.requisitions with
  | none => simp [hcg]
  | some r =>
    simp only [hcg] at h ⊢
    by_cases h1 : r.status ≠ .SUBMITTED
    · rw [if_pos h1]
    · rw [if_neg h1] at h ⊢
      exact update_requisition_err_state s num _ h

/-- reject_requisition leaves the store untouched whenever it reports an
error. -/
theorem reject_requisition_err_state (s : P2PState) (num reason : String) :
    (errOf (reject_requisition s num reason).1).isSome →
    (reject_requisition s num reason).2 = s := by
  intro h
  unfold reject_requisition at h ⊢
  cases hcg : colGet num s.requisitions with
  | none => simp [hcg]
  | some r =>
    simp only [hcg] at h ⊢
    by_cases h1 : r.status ≠ .SUBMITTED
    · rw [if_pos h1]
    · rw [if_neg h1] at h ⊢
      exact update_requisition_err_state s num _ h

/-- delete_requisition leaves the store untouched whenever it reports an
error. -/
theorem delete_requisition_err_state (s : P2PState) (num : String) :
    (errOf (delete_requisition s num).1).isSome →
    (delete_requisition s num).2 = s := by
  intro h
  unfold delete_requisition at h ⊢
  cases hcg : colGet num s.requisitions with
  | none => simp [hcg]
  | some r =>
    simp only [hcg] at h ⊢
    by_cases h1 : r.status = .DRAFT ∨ r.status = .REJECTED
    · rw [if_pos h1] at h
      simp [errOf] at h
    · rw [if_neg h1]

/-- create_order leaves the store untouched whenever it reports an error. -/
theorem create_order_err_state (mats : MaterialStore) (s : P2PState)
    (d : OrderCreate) :
    (errOf (create_order mats s d).1).isSome →
    (create_order mats s d).2 = s := by
  intro h
  unfold create_order at h ⊢
  by_cases hv : ¬ validate_vendor d.vendor
  · rw [if_pos hv]
  · rw [if_neg hv] at h ⊢
    cases hm : validate_ord_items_materials mats d.items with
    | error e => simp [hm]
    | ok v =>
      simp only [hm] at h ⊢
      unfold dlCreateOrder at h ⊢
      cases hg : colGet d.document_number s.orders with
      | some o => simp [hg]
      | none =>
        simp only [hg] at h
        simp [errOf] at h

/-- create_order_from_requisition leaves the store untouched whenever it
reports an error. -/
theorem create_order_from_requisition_err_state (s : P2PState)
    (reqNum vendor : String) (terms : Option String) (genNum : String) :
    (errOf (create_order_from_requisition s reqNum vendor terms genNum).1).isSome →
    (create_order_from_requisition s reqNum vendor terms genNum).2 = s := by
  intro h
  unfold create_order_from_requisition at h ⊢
  cases hcg : colGet reqNum s.requisitions with
  | none => simp [hcg]
  | some r =>
    simp only [hcg] at h ⊢
    by_cases h1 : r.status ≠ .APPROVED
    · rw [if_pos h1]
    · rw [if_neg h1] at h ⊢
      by_cases h2 : ¬ validate_vendor (some vendor)
      · rw [if_pos h2]
      · rw [if_neg h2] at h ⊢
        unfold dlCreateOrderFromRequisition at h ⊢
        simp only [hcg] at h ⊢
        cases hg : colGet genNum s.orders with
        | some o => simp [hg]
        | none =>
          simp only [hg] at h
          simp [errOf] at h

/-- submit_order leaves the store untouched whenever it reports an error. -/
theorem submit_order_err_state (s : P2PState) (num : String) :
    (errOf (submit_order s num).1).isSome →
    (submit_order s num).2 = s := by
  intro h
  unfold submit_order at h ⊢
  cases hcg : colGet num s.orders with
  | none => simp [hcg]
  | some o =>
    simp only [hcg] at h ⊢
    by_cases h1 : o.status ≠ .DRAFT
    · rw [if_pos h1]
    · rw [if_neg h1] at h ⊢
      by_cases h2 : ¬ (validate_vendor o.vendor && validate_order_items o.items)
      · rw [if_pos h2]
      · rw [if_neg h2] at h ⊢
        exact update_order_err_state s num _ h

/-- approve_order leaves the store untouched whenever it reports an error. -/
theorem approve_order_err_state (s : P2PState) (num : String) :
    (errOf (approve_order s num).1).isSome →
    (approve_order s num).2 = s := by
  intro h
  unfold approve_order at h ⊢
  cases hcg : colGet num s.orders with
  | none => simp [hcg]
  | some o =>
    simp only [hcg] at h ⊢
    by_cases h1 : o.status ≠ .SUBMITTED
    · rw [if_pos h1]
    · rw [if_neg h1] at h ⊢
      exact update_order_err_state s num _ h

/-- receive_order leaves the store untouched whenever it reports an error. -/
theorem receive_order_err_state (s : P2PState) (num : String)
    (ri : Option (List (Nat × Rat))) :
    (errOf (receive_order s num ri).1).isSome →
    (receive_order s num ri).2 = s := by
  intro h
  unfold receive_order at h ⊢
  cases hcg : colGet num s.orders with
  | none => simp [hcg]
  | some o =>
    simp only [hcg] at h ⊢
    by_cases h1 : o.status ≠ .APPROVED
    · rw [if_pos h1]
    · rw [if_neg h1] at h ⊢
      exact update_order_err_state s num _ h

/-- complete_order leaves the store untouched whenever it reports an
error. -/
theorem complete_order_err_state (s : P2PState) (num : String) :
    (errOf (complete_order s num).1).isSome →
    (complete_order s num).2 = s := by
  intro h
  unfold complete_order at h ⊢
  cases hcg : colGet num s.orders with
  | none => simp [hcg]
  | some o =>
    simp only [hcg] at h ⊢
    by_cases h1 : o.status = .RECEIVED ∨ o.status = .PARTIALLY_RECEIVED
    · rw [if_pos h1] at h ⊢
      exact update_order_err_state s num _ h
    · rw [if_neg h1]

/-- cancel_order leaves the store untouched whenever it reports an error. -/
theorem cancel_order_err_state (s : P2PState) (num reason : String) :
    (errOf (cancel_order s num reason).1).isSome →
    (cancel_order s num reason).2 = s := by
  intro h
  unfold cancel_order at h ⊢
  cases hcg : colGet num s.orders with
  | none => simp [hcg]
  | some o =>
    simp only [hcg] at h ⊢
    by_cases h1 : o.status = .COMPLETED ∨ o.status = .CANCELED
    · rw [if_pos h1]
    · rw [if_neg h1] at h ⊢
      exact update_order_err_state s num _ h

/-- delete_order leaves the store untouched whenever it reports an error. -/
theorem delete_order_err_state (s : P2PState) (num : String) :
    (errOf (delete_order s num).1).isSome →
    (delete_order s num).2 = s := by
  intro h
  unfold delete_order at h ⊢
  cases hcg : colGet num s.orders with
  | none => simp [hcg]
  | some o =>
    simp only [hcg] at h ⊢
    by_cases h1 : o.status = .DRAFT
    · rw [if_pos h1] at h
      simp [errOf] at h
    · rw [if_neg h1]

/-- C7: every operation of the Material and P2P services is atomic at
single-record granularity: whenever an operation reports an error
(NotFoundError, ValidationError, ConflictError or BadRequestError), the store
is exactly what it was before the call. -/
theorem operations_atomic :
    (∀ (s : MaterialStore) (op : MatOp),
      (runMatOp s op).1.isSome → (runMatOp s op).2 = s) ∧
    (∀ (mats : MaterialStore) (s : P2PState) (op : P2POp),
      (runP2POp mats s op).1.isSome → (runP2POp mats s op).2 = s) := by
  constructor
  · intro s op h
    cases op with
    | create d g => exact create_material_err_state s d g h
    | update id u => exact update_material_err_state s id u h
    | delete id => exact delete_material_err_state s id h
    | deprecate id => exact deprecate_material_err_state s id h
    | activate id => exact activate_material_err_state s id h
  · intro mats s op h
    cases op with
    | createReq d => exact create_requisition_err_state mats s d h
    | updateReq num u => exact update_requisition_err_state s num u h
    | submitReq num => exact submit_requisition_err_state s num h
    | approveReq num => exact approve_requisition_err_state s num h
    | rejectReq num reason =>
      exact reject_requisition_err_state s num reason h
    | deleteReq num => exact delete_requisition_err_state s num h
    | createOrd d => exact create_order_err_state mats s d h
    | createOrdFromReq reqNum vendor terms genNum =>
      exact create_order_from_requisition_err_state s reqNum vendor terms
        genNum h
    | updateOrd num u => exact update_order_err_state s num u h
    | submitOrd num => exact submit_order_err_state s num h
    | approveOrd num => exact approve_order_err_state s num h
    | receiveOrd num ri => exact receive_order_err_state s num ri h
    | completeOrd num => exact complete_order_err_state s num h
    | cancelOrd num reason => exact cancel_order_err_state s num reason h
    | deleteOrd num => exact delete_order_err_state s num h

/-- Witness for operations_atomic: deleting the active material M1 errors
and leaves the material store unchanged; deleting the completed order PO003
errors and leaves the P2P store unchanged. -/
theorem operations_atomic_witness :
    (runMatOp fixtureMats (.delete "M1")).2 = fixtureMats ∧
    (runP2POp fixtureMats fixtureP2P (.deleteOrd "PO003")).2 = fixtureP2P :=
  ⟨operations_atomic.1 fixtureMats (.delete "M1") (by decide),
   operations_atomic.2 fixtureMats fixtureP2P (.deleteOrd "PO003")
     (by decide)⟩

end MiniMeta
